import Mathlib

/-!
Verification development for the x87 FPU emulator core
(vm86/mame/emu/cpu/i386/x87ops.c).

The development shallowly embeds the data model (80-bit extended values,
the status/control/tag words, the eight-slot register file) and the
handlers the claims concern.  Machine integers are modelled as `Nat`
with explicit truncation where the C computation can overflow; the
global SoftFloat exception-flag word and rounding mode are state
fields; SoftFloat arithmetic itself (an external library, not part of
the translated source) enters through an explicit `SoftFloat` record of
operations, each returning its result together with the exception flags
it raises.
-/

/-- `a &&& ~~~m` on fixed-width machine integers: keep the bits of `a`
that are not in `m`.  (`a ^^^ (a &&& m)` clears exactly the common bits,
which is the same function on arbitrary-width `Nat`.) -/
def landNot (a m : Nat) : Nat := a ^^^ (a &&& m)

/-- Read a `w`-bit field at bit offset `s`. -/
def getF (w s x : Nat) : Nat := (x >>> s) &&& (2 ^ w - 1)

/-- Overwrite the `w`-bit field at bit offset `s` with `t`:
`(x & ~(mask << s)) | (t << s)`. -/
def setF (w s x t : Nat) : Nat := landNot x ((2 ^ w - 1) <<< s) ||| (t <<< s)

/-! ### Defines (x87ops.c lines 30-68) -/

def X87_SW_IE : Nat := 0x0001
def X87_SW_DE : Nat := 0x0002
def X87_SW_ZE : Nat := 0x0004
def X87_SW_OE : Nat := 0x0008
def X87_SW_UE : Nat := 0x0010
def X87_SW_PE : Nat := 0x0020
def X87_SW_SF : Nat := 0x0040
def X87_SW_ES : Nat := 0x0080
def X87_SW_C0 : Nat := 0x0100
def X87_SW_C1 : Nat := 0x0200
def X87_SW_C2 : Nat := 0x0400
def X87_SW_TOP_SHIFT : Nat := 11
def X87_SW_TOP_MASK : Nat := 7
def X87_SW_C3 : Nat := 0x4000

def X87_CW_IM : Nat := 0x0001
def X87_CW_ZM : Nat := 0x0004
def X87_CW_PC_SHIFT : Nat := 8
def X87_CW_PC_MASK : Nat := 3
def X87_CW_PC_SINGLE : Nat := 0
def X87_CW_PC_DOUBLE : Nat := 2
def X87_CW_PC_EXTEND : Nat := 3
def X87_CW_RC_SHIFT : Nat := 10
def X87_CW_RC_MASK : Nat := 3
def X87_CW_RC_NEAREST : Nat := 0
def X87_CW_RC_DOWN : Nat := 1
def X87_CW_RC_UP : Nat := 2
def X87_CW_RC_ZERO : Nat := 3

def X87_TW_MASK : Nat := 3
def X87_TW_VALID : Nat := 0
def X87_TW_ZERO : Nat := 1
def X87_TW_SPECIAL : Nat := 2
def X87_TW_EMPTY : Nat := 3

/-- Modelled from the spec: the SoftFloat extended-precision library is an
external collaborator (its sources are not part of the translated file);
its global exception-flag word carries one bit per IEEE exception.  The
exact bit positions are irrelevant to every claim; distinct powers of two
are used. -/
def float_flag_invalid : Nat := 1
def float_flag_denormal : Nat := 2
def float_flag_divbyzero : Nat := 4
def float_flag_overflow : Nat := 8
def float_flag_underflow : Nat := 16
def float_flag_inexact : Nat := 32

/-- Modelled from the spec: SoftFloat rounding-mode constants, in the
order of the `x87_to_sf_rc` table of the source. -/
def float_round_nearest_even : Nat := 0
def float_round_down : Nat := 1
def float_round_up : Nat := 2
def float_round_to_zero : Nat := 3

/-- Maps x87 round modes to SoftFloat round modes (`x87_to_sf_rc`). -/
def x87_to_sf_rc (rc : Nat) : Nat :=
  match rc with
  | 0 => float_round_nearest_even
  | 1 => float_round_down
  | 2 => float_round_up
  | _ => float_round_to_zero

/-- 64-bit truncation, for C expressions computed in 64-bit registers. -/
def trunc64 (x : Nat) : Nat := x % 18446744073709551616

/-! ### The extended-precision value (`floatx80`) -/

/-- An 80-bit extended value: 16-bit `high` (sign and biased exponent)
and 64-bit `low` (explicit integer bit plus 63 fraction bits). -/
structure floatx80 where
  high : Nat
  low : Nat
deriving DecidableEq, Repr

def fx80_zero : floatx80 := ⟨0x0000, 0x0000000000000000⟩
def fx80_one : floatx80 := ⟨0x3fff, 0x8000000000000000⟩
def fx80_ninf : floatx80 := ⟨0xffff, 0x8000000000000000⟩
def fx80_inan : floatx80 := ⟨0xffff, 0xc000000000000000⟩

/-- The positive-infinity encoding (not a named constant of the source;
used only to state theorems). -/
def fx80_pinf : floatx80 := ⟨0x7fff, 0x8000000000000000⟩

/-- Modelled from the spec: SoftFloat's `floatx80_is_nan` (the library is
external to the translated file): exponent all-ones and nonzero fraction
(the C tests `(bits64)(a.low << 1)`, a 64-bit truncating shift). -/
def floatx80_is_nan (a : floatx80) : Bool :=
  (a.high &&& 0x7fff == 0x7fff) && (trunc64 (a.low <<< 1) != 0)

/-- Modelled from the spec: SoftFloat's `floatx80_is_signaling_nan`:
exponent all-ones, quiet bit (bit 62) clear, remaining fraction nonzero. -/
def floatx80_is_signaling_nan (a : floatx80) : Bool :=
  let aLow := landNot a.low 0x4000000000000000
  (a.high &&& 0x7fff == 0x7fff) && (trunc64 (aLow <<< 1) != 0) && (a.low == aLow)

def floatx80_is_zero (fx : floatx80) : Bool :=
  (fx.high &&& 0x7fff == 0) && (trunc64 (fx.low <<< 1) == 0)

def floatx80_is_inf (fx : floatx80) : Bool :=
  (fx.high &&& 0x7fff == 0x7fff) && (trunc64 (fx.low <<< 1) == 0)

def floatx80_is_denormal (fx : floatx80) : Bool :=
  (fx.high &&& 0x7fff == 0) &&
  (fx.low &&& 0x8000000000000000 == 0) &&
  (trunc64 (fx.low <<< 1) != 0)

def floatx80_abs (fx : floatx80) : floatx80 :=
  { fx with high := fx.high &&& 0x7fff }

/-! ### The FPU state

The source keeps the FPU state in file-scope globals (`m_x87_sw`,
`m_x87_cw`, `m_x87_tw`, `m_x87_reg[8]`) together with the SoftFloat
globals (`float_exception_flags`, `float_rounding_mode`) and the host
fields it touches (`m_cr[0]`, `m_ext`, the #MF trap request).  They are
collected in one record; handlers map state to state. -/

structure X87 where
  sw : Nat
  cw : Nat
  tw : Nat
  reg : Fin 8 → floatx80
  fflags : Nat
  frm : Nat
  cr0 : Nat
  mext : Bool
  mf : Bool

/-- `ST_TO_PHYS(x) = ((sw >> TOP_SHIFT) + x) & TOP_MASK` -/
def stToPhys (sw i : Nat) : Fin 8 :=
  ⟨((sw >>> X87_SW_TOP_SHIFT) + i) &&& X87_SW_TOP_MASK,
    Nat.lt_succ_of_le Nat.and_le_right⟩

/-- `ST(x)` -/
def STx (s : X87) (i : Nat) : floatx80 := s.reg (stToPhys s.sw i)

/-- `X87_TAG(x) = (tw >> (x << 1)) & TW_MASK` -/
def X87_TAG (tw p : Nat) : Nat := (tw >>> (p <<< 1)) &&& X87_TW_MASK

/-- `X87_RC = (cw >> RC_SHIFT) & RC_MASK` -/
def X87_RC (cw : Nat) : Nat := (cw >>> X87_CW_RC_SHIFT) &&& X87_CW_RC_MASK

/-- `X87_IS_ST_EMPTY(x)` -/
def X87_IS_ST_EMPTY (s : X87) (i : Nat) : Bool :=
  X87_TAG s.tw (stToPhys s.sw i).val == X87_TW_EMPTY

/-- The TOP field of the status word (bits 13:11). -/
def topOf (sw : Nat) : Nat := (sw >>> X87_SW_TOP_SHIFT) &&& X87_SW_TOP_MASK

/-- `x87_set_stack_top` -/
def x87_set_stack_top (s : X87) (top : Nat) : X87 :=
  { s with sw := landNot s.sw (X87_SW_TOP_MASK <<< X87_SW_TOP_SHIFT) |||
      (top <<< X87_SW_TOP_SHIFT) }

/-- `x87_set_tag` -/
def x87_set_tag (tw p tag : Nat) : Nat :=
  landNot tw (X87_TW_MASK <<< (p <<< 1)) ||| (tag <<< (p <<< 1))

/-- The tag chosen by `x87_write_stack` when `update_tag` is set:
ZERO for a zero value, SPECIAL for an infinity or NaN, VALID otherwise. -/
def x87_tag_class (value : floatx80) : Nat :=
  if floatx80_is_zero value then X87_TW_ZERO
  else if floatx80_is_inf value || floatx80_is_nan value then X87_TW_SPECIAL
  else X87_TW_VALID

/-- `x87_write_stack` -/
def x87_write_stack (s : X87) (i : Nat) (value : floatx80) (update_tag : Bool) :
    X87 :=
  let s1 := { s with reg := Function.update s.reg (stToPhys s.sw i) value }
  if update_tag then
    { s1 with tw := x87_set_tag s1.tw (stToPhys s.sw i).val (x87_tag_class value) }
  else s1

/-- `x87_set_stack_underflow` -/
def x87_set_stack_underflow (s : X87) : X87 :=
  { s with sw := landNot s.sw X87_SW_C1 ||| (X87_SW_IE ||| X87_SW_SF) }

/-- `x87_set_stack_overflow` -/
def x87_set_stack_overflow (s : X87) : X87 :=
  { s with sw := s.sw ||| (X87_SW_C1 ||| X87_SW_IE ||| X87_SW_SF) }

/-- `x87_inc_stack` -/
def x87_inc_stack (s : X87) : Bool × X87 :=
  if X87_IS_ST_EMPTY s 0 then
    let s := x87_set_stack_underflow s
    if landNot X87_CW_IM s.cw ≠ 0 then (false, s)
    else
      let s := { s with tw := x87_set_tag s.tw (stToPhys s.sw 0).val X87_TW_EMPTY }
      (false, x87_set_stack_top s (stToPhys s.sw 1).val)
  else
    let s := { s with tw := x87_set_tag s.tw (stToPhys s.sw 0).val X87_TW_EMPTY }
    (true, x87_set_stack_top s (stToPhys s.sw 1).val)

/-- `x87_dec_stack` -/
def x87_dec_stack (s : X87) : Bool × X87 :=
  if ¬ X87_IS_ST_EMPTY s 7 then
    let s := x87_set_stack_overflow s
    if landNot X87_CW_IM s.cw ≠ 0 then (false, s)
    else (false, x87_set_stack_top s (stToPhys s.sw 7).val)
  else (true, x87_set_stack_top s (stToPhys s.sw 7).val)

/-! ### Exception funnel (`x87_check_exceptions`, x87ops.c lines 284-323) -/

/-- One drain step of `x87_check_exceptions`: if `flag` is set in the
SoftFloat flag word, OR `swbit` into SW and clear `flag`. -/
def harvestStep (flag swbit : Nat) (s : X87) : X87 :=
  if s.fflags &&& flag ≠ 0 then
    { s with sw := s.sw ||| swbit, fflags := landNot s.fflags flag }
  else s

/-- Phase 1 of `x87_check_exceptions` (lines 287-306): drain the SoftFloat
invalid/overflow/underflow/inexact flags into the sticky SW latches,
in source order. -/
def x87_harvest (s : X87) : X87 :=
  harvestStep float_flag_inexact X87_SW_PE
    (harvestStep float_flag_underflow X87_SW_UE
      (harvestStep float_flag_overflow X87_SW_OE
        (harvestStep float_flag_invalid X87_SW_IE s)))

/-- `x87_check_exceptions`: drain the SoftFloat flags, then, when an
unmasked exception is pending (`(sw & ~cw) & 0x3f`), deliver #MF (on
CR0.NE, `m_cr[0] & 0x20`) and report failure. -/
def x87_check_exceptions (s : X87) : Bool × X87 :=
  let s := x87_harvest s
  if landNot s.sw s.cw &&& 0x3f ≠ 0 then
    let s := if s.cr0 &&& 0x20 ≠ 0 then { s with mext := true, mf := true } else s
    (false, s)
  else (true, s)

/-- `x87_write_cw`: store CW and push its RC field into SoftFloat. -/
def x87_write_cw (s : X87) (cw : Nat) : X87 :=
  { s with cw := cw,
           frm := x87_to_sf_rc ((cw >>> X87_CW_RC_SHIFT) &&& X87_CW_RC_MASK) }

/-- `x87_reset`: CW←0x037F, SW←0, TW←0xFFFF. -/
def x87_reset (s : X87) : X87 :=
  let s := x87_write_cw s 0x037f
  { s with sw := 0, tw := 0xffff }

/-- `x87_finit` (the FINIT handler). -/
def x87_finit (s : X87) : X87 := x87_reset s

/-! ### Field-lemma specialisations -/

/-! ### The SoftFloat interface

Modelled from the spec: the extended-precision soft-float library is an
external collaborator exposing add/sub/mul/div, conversions, a
round-to-integer under the current mode, comparisons, and a global
exception-flag word plus rounding-mode variable.  Each operation is a
record field taking the current rounding mode where relevant and
returning its result together with the exception flags it raises (which
the caller ORs into the global flag word). -/

structure SoftFloat where
  float32_to_floatx80 : Nat → floatx80 × Nat
  float64_to_floatx80 : Nat → floatx80 × Nat
  floatx80_to_float32 : Nat → floatx80 → Nat × Nat
  floatx80_to_float64 : Nat → floatx80 → Nat × Nat
  float32_add : Nat → Nat → Nat → Nat × Nat
  float32_sub : Nat → Nat → Nat → Nat × Nat
  float32_div : Nat → Nat → Nat → Nat × Nat
  float64_add : Nat → Nat → Nat → Nat × Nat
  float64_sub : Nat → Nat → Nat → Nat × Nat
  float64_div : Nat → Nat → Nat → Nat × Nat
  floatx80_add : Nat → floatx80 → floatx80 → floatx80 × Nat
  floatx80_sub : Nat → floatx80 → floatx80 → floatx80 × Nat
  floatx80_div : Nat → floatx80 → floatx80 → floatx80 × Nat
  floatx80_round_to_int : Nat → floatx80 → floatx80 × Nat
  int32_to_floatx80 : Int → floatx80
  floatx80_lt : floatx80 → floatx80 → Bool × Nat
  floatx80_le : floatx80 → floatx80 → Bool × Nat
  floatx80_to_int32 : Nat → floatx80 → Int × Nat

/-- OR freshly raised SoftFloat exception flags into the global flag word. -/
def raiseFlags (s : X87) (f : Nat) : X87 := { s with fflags := s.fflags ||| f }

/-! ### Core arithmetic (`x87_add`, `x87_sub`, `x87_div`, lines 353-471) -/

/-- `x87_add`: the PC-based facade around SoftFloat addition. -/
def x87_add (sf : SoftFloat) (s : X87) (a b : floatx80) : floatx80 × X87 :=
  match (s.cw >>> X87_CW_PC_SHIFT) &&& X87_CW_PC_MASK with
  | 0 =>
    let (a32, f1) := sf.floatx80_to_float32 s.frm a
    let (b32, f2) := sf.floatx80_to_float32 s.frm b
    let (r32, f3) := sf.float32_add s.frm a32 b32
    let (r, f4) := sf.float32_to_floatx80 r32
    (r, raiseFlags s (f1 ||| f2 ||| f3 ||| f4))
  | 2 =>
    let (a64, f1) := sf.floatx80_to_float64 s.frm a
    let (b64, f2) := sf.floatx80_to_float64 s.frm b
    let (r64, f3) := sf.float64_add s.frm a64 b64
    let (r, f4) := sf.float64_to_floatx80 r64
    (r, raiseFlags s (f1 ||| f2 ||| f3 ||| f4))
  | 3 =>
    let (r, f) := sf.floatx80_add s.frm a b
    (r, raiseFlags s f)
  | _ => (⟨0, 0⟩, s)

/-- `x87_sub` -/
def x87_sub (sf : SoftFloat) (s : X87) (a b : floatx80) : floatx80 × X87 :=
  match (s.cw >>> X87_CW_PC_SHIFT) &&& X87_CW_PC_MASK with
  | 0 =>
    let (a32, f1) := sf.floatx80_to_float32 s.frm a
    let (b32, f2) := sf.floatx80_to_float32 s.frm b
    let (r32, f3) := sf.float32_sub s.frm a32 b32
    let (r, f4) := sf.float32_to_floatx80 r32
    (r, raiseFlags s (f1 ||| f2 ||| f3 ||| f4))
  | 2 =>
    let (a64, f1) := sf.floatx80_to_float64 s.frm a
    let (b64, f2) := sf.floatx80_to_float64 s.frm b
    let (r64, f3) := sf.float64_sub s.frm a64 b64
    let (r, f4) := sf.float64_to_floatx80 r64
    (r, raiseFlags s (f1 ||| f2 ||| f3 ||| f4))
  | 3 =>
    let (r, f) := sf.floatx80_sub s.frm a b
    (r, raiseFlags s f)
  | _ => (⟨0, 0⟩, s)

/-- `x87_div` -/
def x87_div (sf : SoftFloat) (s : X87) (a b : floatx80) : floatx80 × X87 :=
  match (s.cw >>> X87_CW_PC_SHIFT) &&& X87_CW_PC_MASK with
  | 0 =>
    let (a32, f1) := sf.floatx80_to_float32 s.frm a
    let (b32, f2) := sf.floatx80_to_float32 s.frm b
    let (r32, f3) := sf.float32_div s.frm a32 b32
    let (r, f4) := sf.float32_to_floatx80 r32
    (r, raiseFlags s (f1 ||| f2 ||| f3 ||| f4))
  | 2 =>
    let (a64, f1) := sf.floatx80_to_float64 s.frm a
    let (b64, f2) := sf.floatx80_to_float64 s.frm b
    let (r64, f3) := sf.float64_div s.frm a64 b64
    let (r, f4) := sf.float64_to_floatx80 r64
    (r, raiseFlags s (f1 ||| f2 ||| f3 ||| f4))
  | 3 =>
    let (r, f) := sf.floatx80_div s.frm a b
    (r, raiseFlags s f)
  | _ => (⟨0, 0⟩, s)

/-! ### Instruction handlers -/

/-- `x87_fadd_st_sti` (lines 556-587).  Memory access and cycle counting
are host-side and not part of the state. -/
def x87_fadd_st_sti (sf : SoftFloat) (modrm : Nat) (s : X87) : X87 :=
  let i := modrm &&& 7
  let rs :=
    if X87_IS_ST_EMPTY s 0 || X87_IS_ST_EMPTY s i then
      (fx80_inan, x87_set_stack_underflow s)
    else
      let a := STx s 0
      let b := STx s i
      if (floatx80_is_signaling_nan a || floatx80_is_signaling_nan b)
          || (floatx80_is_inf a && floatx80_is_inf b &&
              ((a.high ^^^ b.high) &&& 0x8000 != 0)) then
        (fx80_inan, { s with sw := s.sw ||| X87_SW_IE })
      else x87_add sf s a b
  let cs := x87_check_exceptions rs.2
  if cs.1 then x87_write_stack cs.2 0 rs.1 true else cs.2

/-- `x87_fsub_st_sti` (lines 805-836): `ST(0) ← ST(0) − ST(i)`; the
infinity pre-check is the same sign-bits-differ test as the ADD family. -/
def x87_fsub_st_sti (sf : SoftFloat) (modrm : Nat) (s : X87) : X87 :=
  let i := modrm &&& 7
  let rs :=
    if X87_IS_ST_EMPTY s 0 || X87_IS_ST_EMPTY s i then
      (fx80_inan, x87_set_stack_underflow s)
    else
      let a := STx s 0
      let b := STx s i
      if (floatx80_is_signaling_nan a || floatx80_is_signaling_nan b)
          || (floatx80_is_inf a && floatx80_is_inf b &&
              ((a.high ^^^ b.high) &&& 0x8000 != 0)) then
        (fx80_inan, { s with sw := s.sw ||| X87_SW_IE })
      else x87_sub sf s a b
  let cs := x87_check_exceptions rs.2
  if cs.1 then x87_write_stack cs.2 0 rs.1 true else cs.2

/-- `x87_fdiv_st_sti` (lines 1303-1336): `ST(0) ← ST(0) / ST(i)`; only a
signaling-NaN pre-check. -/
def x87_fdiv_st_sti (sf : SoftFloat) (modrm : Nat) (s : X87) : X87 :=
  let i := modrm &&& 7
  let rs :=
    if X87_IS_ST_EMPTY s 0 || X87_IS_ST_EMPTY s i then
      (fx80_inan, x87_set_stack_underflow s)
    else
      let a := STx s 0
      let b := STx s i
      if floatx80_is_signaling_nan a || floatx80_is_signaling_nan b then
        (fx80_inan, { s with sw := s.sw ||| X87_SW_IE })
      else x87_div sf s a b
  let cs := x87_check_exceptions rs.2
  if cs.1 then x87_write_stack cs.2 0 rs.1 true else cs.2

/-- `x87_fcmovb_sti` (lines 1982-2004): when CF holds, copy ST(i) into
ST(0) by direct assignment (no tag update); when CF is clear, do
nothing. -/
def x87_fcmovb_sti (cf : Nat) (modrm : Nat) (s : X87) : X87 :=
  let i := modrm &&& 7
  if cf = 1 then
    let rs :=
      if X87_IS_ST_EMPTY s i then (fx80_inan, x87_set_stack_underflow s)
      else (STx s i, s)
    let cs := x87_check_exceptions rs.2
    if cs.1 then
      { cs.2 with reg := Function.update cs.2.reg (stToPhys cs.2.sw 0) rs.1 }
    else cs.2
  else s

/-- `x87_fld_m32real` (lines 2579-2607), staging phase: the TOP
decrement, the memory decode (the value read from memory is a
parameter; memory access is host-side) and the signaling-NaN/denormal
screen. -/
def x87_fld_m32real_value (sf : SoftFloat) (m32 : Nat) (s : X87) :
    floatx80 × X87 :=
  let ds := x87_dec_stack s
  if ds.1 then
    let vf := sf.float32_to_floatx80 m32
    let s1 := raiseFlags ds.2 vf.2
    let s1 := { s1 with sw := landNot s1.sw X87_SW_C1 }
    if floatx80_is_signaling_nan vf.1 || floatx80_is_denormal vf.1 then
      (fx80_inan, { s1 with sw := s1.sw ||| X87_SW_IE })
    else (vf.1, s1)
  else (fx80_inan, ds.2)

/-- `x87_fld_m32real`, commit phase: write the staged value only when the
exception check passes. -/
def x87_fld_m32real (sf : SoftFloat) (m32 : Nat) (s : X87) : X87 :=
  let vs := x87_fld_m32real_value sf m32 s
  let cs := x87_check_exceptions vs.2
  if cs.1 then x87_write_stack cs.2 0 vs.1 true else cs.2

/-- `x87_fbld` digit decode (lines 2769-2781): most-significant-first
Horner accumulation over 18 packed digits; iteration `k+1` of the fuel
recursion reads nibble `4*k`, so fuel 16 starts at bit 60 and ends at
bit 0 as the C loop does.  The running value is a 64-bit unsigned. -/
def unpackLoop : Nat → Nat → Nat → Nat
  | 0, _, m => m
  | k+1, low, m => unpackLoop k low (trunc64 (m * 10 + ((low >>> (4 * k)) &&& 0xf)))

/-- `x87_fbld`, digit/sign part: from the 10 bytes read (an `floatx80`
aggregate), extract the sign bit and the 18-digit value. -/
def x87_fbld_unpack (v : floatx80) : Nat × Nat :=
  let sign := v.high &&& 0x8000
  let m0 := trunc64 (((v.high >>> 4) &&& 0xf) * 10 + (v.high &&& 0xf))
  (unpackLoop 16 v.low m0, sign)

/-- `x87_fbstp` digit encode (lines 3148-3159): 16 rounds of
divide-by-ten filling successive nibbles of the low word; returns the
remaining quotient and the packed low word. -/
def packLoop : Nat → Nat → Nat × Nat → Nat × Nat
  | 0, _, p => p
  | k+1, sh, p => packLoop k (sh + 4) (p.1 / 10, trunc64 (p.2 + ((p.1 % 10) <<< sh)))

/-- `x87_fbstp`, encode part: from the 64-bit magnitude `u64` and the
`high` word of ST(0) (for the sign bit), build the 10-byte packed-BCD
image (lines 3148-3160). -/
def x87_fbstp_pack (u64 stHigh : Nat) : floatx80 :=
  let p := packLoop 16 0 (u64, 0)
  let high := (p.1 % 10) + (((p.1 / 10) % 10) <<< 4)
  ⟨high ||| (stHigh &&& 0x8000), p.2⟩

/-- Specification-side recursion: little-endian base-10 digits packed one
per nibble (what `packLoop` computes, proved in `packLoop_spec`). -/
def encL : Nat → Nat → Nat
  | 0, _ => 0
  | k+1, n => n % 10 + 16 * encL k (n / 10)

/-- Specification-side recursion: most-significant-first Horner decode of
`k` nibbles as decimal digits (what `unpackLoop` computes, proved in
`unpackLoop_spec`). -/
def decL : Nat → Nat → Nat
  | 0, _ => 0
  | k+1, b => 10 * decL k (b / 16) + b % 16

/-- `x87_fincstp` (lines 4356-4364). -/
def x87_fincstp (s : X87) : X87 :=
  let s := { s with sw := landNot s.sw X87_SW_C1 }
  let is := x87_inc_stack s
  (x87_check_exceptions is.2).2

/-- `x87_fdecstp` (lines 4346-4354). -/
def x87_fdecstp (s : X87) : X87 :=
  let s := { s with sw := landNot s.sw X87_SW_C1 }
  let ds := x87_dec_stack s
  (x87_check_exceptions ds.2).2

/-- `x87_fxch_sti` (lines 4742-4772): substitute indefinite-NaN for an
EMPTY source (latching stack underflow), then, when the check passes,
swap the values and the tags of ST(0) and ST(i). -/
def x87_fxch_sti (modrm : Nat) (s : X87) : X87 :=
  let i := modrm &&& 7
  let s :=
    if X87_IS_ST_EMPTY s 0 then
      let s := { s with reg := Function.update s.reg (stToPhys s.sw 0) fx80_inan }
      let s := { s with tw := x87_set_tag s.tw (stToPhys s.sw 0).val X87_TW_SPECIAL }
      x87_set_stack_underflow s
    else s
  let s :=
    if X87_IS_ST_EMPTY s i then
      let s := { s with reg := Function.update s.reg (stToPhys s.sw i) fx80_inan }
      let s := { s with tw := x87_set_tag s.tw (stToPhys s.sw i).val X87_TW_SPECIAL }
      x87_set_stack_underflow s
    else s
  let cs := x87_check_exceptions s
  if cs.1 then
    let s2 := cs.2
    let tmp := STx s2 0
    let s3 := { s2 with reg := Function.update s2.reg (stToPhys s2.sw 0) (STx s2 i) }
    let s4 := { s3 with reg := Function.update s3.reg (stToPhys s3.sw i) tmp }
    let tag0 := X87_TAG s4.tw (stToPhys s4.sw 0).val
    let tagi := X87_TAG s4.tw (stToPhys s4.sw i).val
    let s5 := { s4 with tw := x87_set_tag s4.tw (stToPhys s4.sw 0).val tagi }
    { s5 with tw := x87_set_tag s5.tw (stToPhys s5.sw i).val tag0 }
  else cs.2

/-- `x87_fist_m16int` (lines 2969-3000): round ST(0) to integer, range
check against the 16-bit extent with short-circuit SoftFloat
comparisons, write the value (or the 16-bit integer indefinite) on a
passing check.  The written value is returned alongside the state. -/
def x87_fist_m16int (sf : SoftFloat) (s : X87) : X87 × Option Int :=
  let rs : Int × X87 :=
    if X87_IS_ST_EMPTY s 0 then
      (-32768, x87_set_stack_underflow s)
    else
      let (fx, f1) := sf.floatx80_round_to_int s.frm (STx s 0)
      let s1 := raiseFlags s f1
      let lowerLim := sf.int32_to_floatx80 (-32768)
      let upperLim := sf.int32_to_floatx80 32767
      let s1 := { s1 with sw := landNot s1.sw X87_SW_C1 }
      let (lt1, f2) := sf.floatx80_lt fx lowerLim
      let s1 := raiseFlags s1 f2
      if !lt1 then
        let (le1, f3) := sf.floatx80_le fx upperLim
        let s1 := raiseFlags s1 f3
        if le1 then
          let (v, f4) := sf.floatx80_to_int32 s1.frm fx
          (v, raiseFlags s1 f4)
        else (-32768, s1)
      else (-32768, s1)
  let cs := x87_check_exceptions rs.2
  if cs.1 then (cs.2, some rs.1) else (cs.2, none)

/-- `x87_fld1` (lines 3178-3202). -/
def x87_fld1 (s : X87) : X87 :=
  let ds := x87_dec_stack s
  let vts :=
    if ds.1 then
      (fx80_one, X87_TW_VALID, { ds.2 with sw := landNot ds.2.sw X87_SW_C1 })
    else (fx80_inan, X87_TW_SPECIAL, ds.2)
  let cs := x87_check_exceptions vts.2.2
  if cs.1 then
    let s3 := { cs.2 with tw := x87_set_tag cs.2.tw (stToPhys cs.2.sw 0).val vts.2.1 }
    x87_write_stack s3 0 vts.1 false
  else cs.2

/-- `x87_fldz` (lines 3362-3386). -/
def x87_fldz (s : X87) : X87 :=
  let ds := x87_dec_stack s
  let vts :=
    if ds.1 then
      (fx80_zero, X87_TW_ZERO, { ds.2 with sw := landNot ds.2.sw X87_SW_C1 })
    else (fx80_inan, X87_TW_SPECIAL, ds.2)
  let cs := x87_check_exceptions vts.2.2
  if cs.1 then
    let s3 := { cs.2 with tw := x87_set_tag cs.2.tw (stToPhys cs.2.sw 0).val vts.2.1 }
    x87_write_stack s3 0 vts.1 false
  else cs.2

/-- `x87_fldl2t` (lines 3204-3232): the incremented low word only under
round-up; truncated otherwise (including round-nearest). -/
def x87_fldl2t (s : X87) : X87 :=
  let ds := x87_dec_stack s
  let vts :=
    if ds.1 then
      let low : Nat :=
        if X87_RC ds.2.cw = X87_CW_RC_UP then 0xd49a784bcd1b8aff
        else 0xd49a784bcd1b8afe
      ((⟨0x4000, low⟩ : floatx80), X87_TW_VALID,
        { ds.2 with sw := landNot ds.2.sw X87_SW_C1 })
    else (fx80_inan, X87_TW_SPECIAL, ds.2)
  let cs := x87_check_exceptions vts.2.2
  if cs.1 then
    let s3 := { cs.2 with tw := x87_set_tag cs.2.tw (stToPhys cs.2.sw 0).val vts.2.1 }
    x87_write_stack s3 0 vts.1 false
  else cs.2

/-- `x87_fldl2e` (lines 3234-3263): incremented low word under round-up
or round-nearest. -/
def x87_fldl2e (s : X87) : X87 :=
  let ds := x87_dec_stack s
  let vts :=
    if ds.1 then
      let rc := X87_RC ds.2.cw
      let low : Nat :=
        if rc = X87_CW_RC_UP ∨ rc = X87_CW_RC_NEAREST then 0xb8aa3b295c17f0bc
        else 0xb8aa3b295c17f0bb
      ((⟨0x3fff, low⟩ : floatx80), X87_TW_VALID,
        { ds.2 with sw := landNot ds.2.sw X87_SW_C1 })
    else (fx80_inan, X87_TW_SPECIAL, ds.2)
  let cs := x87_check_exceptions vts.2.2
  if cs.1 then
    let s3 := { cs.2 with tw := x87_set_tag cs.2.tw (stToPhys cs.2.sw 0).val vts.2.1 }
    x87_write_stack s3 0 vts.1 false
  else cs.2

/-- `x87_fldpi` (lines 3265-3294): incremented low word under round-up or
round-nearest. -/
def x87_fldpi (s : X87) : X87 :=
  let ds := x87_dec_stack s
  let vts :=
    if ds.1 then
      let rc := X87_RC ds.2.cw
      let low : Nat :=
        if rc = X87_CW_RC_UP ∨ rc = X87_CW_RC_NEAREST then 0xc90fdaa22168c235
        else 0xc90fdaa22168c234
      ((⟨0x4000, low⟩ : floatx80), X87_TW_VALID,
        { ds.2 with sw := landNot ds.2.sw X87_SW_C1 })
    else (fx80_inan, X87_TW_SPECIAL, ds.2)
  let cs := x87_check_exceptions vts.2.2
  if cs.1 then
    let s3 := { cs.2 with tw := x87_set_tag cs.2.tw (stToPhys cs.2.sw 0).val vts.2.1 }
    x87_write_stack s3 0 vts.1 false
  else cs.2

/-- `x87_fldlg2` (lines 3296-3325): incremented low word under round-up
or round-nearest. -/
def x87_fldlg2 (s : X87) : X87 :=
  let ds := x87_dec_stack s
  let vts :=
    if ds.1 then
      let rc := X87_RC ds.2.cw
      let low : Nat :=
        if rc = X87_CW_RC_UP ∨ rc = X87_CW_RC_NEAREST then 0x9a209a84fbcff799
        else 0x9a209a84fbcff798
      ((⟨0x3ffd, low⟩ : floatx80), X87_TW_VALID,
        { ds.2 with sw := landNot ds.2.sw X87_SW_C1 })
    else (fx80_inan, X87_TW_SPECIAL, ds.2)
  let cs := x87_check_exceptions vts.2.2
  if cs.1 then
    let s3 := { cs.2 with tw := x87_set_tag cs.2.tw (stToPhys cs.2.sw 0).val vts.2.1 }
    x87_write_stack s3 0 vts.1 false
  else cs.2

/-- `x87_fldln2` (lines 3327-3356): incremented low word under round-up
or round-nearest. -/
def x87_fldln2 (s : X87) : X87 :=
  let ds := x87_dec_stack s
  let vts :=
    if ds.1 then
      let rc := X87_RC ds.2.cw
      let low : Nat :=
        if rc = X87_CW_RC_UP ∨ rc = X87_CW_RC_NEAREST then 0xb17217f7d1cf79ac
        else 0xb17217f7d1cf79ab
      ((⟨0x3ffe, low⟩ : floatx80), X87_TW_VALID,
        { ds.2 with sw := landNot ds.2.sw X87_SW_C1 })
    else (fx80_inan, X87_TW_SPECIAL, ds.2)
  let cs := x87_check_exceptions vts.2.2
  if cs.1 then
    let s3 := { cs.2 with tw := x87_set_tag cs.2.tw (stToPhys cs.2.sw 0).val vts.2.1 }
    x87_write_stack s3 0 vts.1 false
  else cs.2

/-- `x87_tagConsistent`: every non-EMPTY physical slot's tag agrees with
its stored value (spec §8 invariant 2). -/
def x87_tagConsistent (s : X87) : Prop :=
  ∀ p : Fin 8, X87_TAG s.tw p.val ≠ X87_TW_EMPTY →
    X87_TAG s.tw p.val = x87_tag_class (s.reg p)

/-- A baseline concrete state: everything cleared, registers empty, as
after `x87_reset` on a 486-class host (CR0.NE set). -/
def x87_initial : X87 :=
  { sw := 0, cw := 0x037f, tw := 0xffff, reg := fun _ => fx80_zero,
    fflags := 0, frm := 0, cr0 := 0x20, mext := false, mf := false }

/-- A concrete state used to exercise FCMOV: TOP = 0, ST(0) = +0 tagged
ZERO, ST(1) = 1.0 tagged VALID, other slots EMPTY, default control word,
clean status and SoftFloat flags. -/
def c9state : X87 :=
  { sw := 0, cw := 0x037f, tw := 0xfff1,
    reg := fun p => if p.val = 0 then fx80_zero
      else if p.val = 1 then fx80_one else fx80_inan,
    fflags := 0, frm := 0, cr0 := 0x20, mext := false, mf := false }

/-- A SoftFloat instantiation for the FLD m32real scenario, modelled from
the spec: converting the signaling-NaN pattern 0x7F800001 raises the
invalid flag and delivers the quieted NaN; other inputs are irrelevant
to the scenario and return zero. -/
def sfQuietNaN : SoftFloat :=
  { float32_to_floatx80 := fun m =>
      if m = 0x7f800001 then (⟨0x7fff, 0xc000020000000000⟩, float_flag_invalid)
      else (fx80_zero, 0),
    float64_to_floatx80 := fun _ => (fx80_zero, 0),
    floatx80_to_float32 := fun _ _ => (0, 0),
    floatx80_to_float64 := fun _ _ => (0, 0),
    float32_add := fun _ _ _ => (0, 0), float32_sub := fun _ _ _ => (0, 0),
    float32_div := fun _ _ _ => (0, 0), float64_add := fun _ _ _ => (0, 0),
    float64_sub := fun _ _ _ => (0, 0), float64_div := fun _ _ _ => (0, 0),
    floatx80_add := fun _ _ _ => (fx80_zero, 0),
    floatx80_sub := fun _ _ _ => (fx80_zero, 0),
    floatx80_div := fun _ _ _ => (fx80_zero, 0),
    floatx80_round_to_int := fun _ v => (v, 0),
    int32_to_floatx80 := fun _ => fx80_zero,
    floatx80_lt := fun _ _ => (false, 0),
    floatx80_le := fun _ _ => (false, 0),
    floatx80_to_int32 := fun _ _ => (0, 0) }

/-- The reset state with the invalid-operation exception unmasked
(CW = 0x037E, as installed by FLDCW after FINIT). -/
def c2state : X87 := { x87_initial with cw := 0x037e }

/-- The state after FINIT; FLD1: TOP = 7, physical slot 7 holds 1.0
tagged VALID, all other slots EMPTY. -/
def c3state : X87 :=
  { x87_initial with
    sw := 0x3800
    tw := 0x3fff
    reg := fun p => (if p.val = 7 then fx80_one else fx80_zero) }

/-- A stub SoftFloat instantiation whose behaviour, at the inputs the
concrete scenarios exercise, is the library's (modelled from the spec):
round-to-integer of an integral value is the identity raising no flags,
and the ordered comparisons used by the integer-store range check return
false with no flags for an in-between operand; arithmetic entry points
return zero, which serves as a sentinel distinguishing the fall-through
path from a pre-check branch. -/
def sfStub : SoftFloat :=
  { sfQuietNaN with float32_to_floatx80 := fun _ => (fx80_zero, 0) }

/-- SoftFloat with IEEE division semantics at the one input pair the
FDIV scenario uses, modelled from the spec: 1.0 / +0.0 is +infinity and
raises the divide-by-zero flag. -/
def sfDivZero : SoftFloat :=
  { sfStub with floatx80_div := fun _ a b =>
      (if a = fx80_one ∧ b = fx80_zero then (fx80_pinf, float_flag_divbyzero)
       else (fx80_inan, 0)) }

/-- A state with ST(0) = +infinity and ST(1) = `b`, both tagged SPECIAL,
other slots EMPTY. -/
def c8state (b : floatx80) : X87 :=
  { x87_initial with
    tw := 0xfffa
    reg := fun p => (if p.val = 0 then fx80_pinf
      else if p.val = 1 then b else fx80_zero) }

/-- A state with ST(0) = 100000.0 (out of the 16-bit integer range),
tagged VALID, other slots EMPTY. -/
def c7state : X87 :=
  { x87_initial with
    tw := 0xfffc
    reg := fun p => (if p.val = 0
      then (⟨0x400f, 0xc350000000000000⟩ : floatx80) else fx80_zero) }

/-! ## Theorems -/

theorem testBit_landNot (a m i : Nat) :
    (landNot a m).testBit i = (a.testBit i && !(m.testBit i)) := by
  cases h1 : a.testBit i <;> cases h2 : m.testBit i <;>
    simp [landNot, h1, h2]

theorem landNot_eq_self (a m : Nat) (h : a &&& m = 0) : landNot a m = a := by
  rw [landNot, h]
  simp

theorem landNot_landNot (a m n : Nat) :
    landNot (landNot a m) n = landNot a (m ||| n) := by
  apply Nat.eq_of_testBit_eq
  intro i
  simp only [testBit_landNot, Nat.testBit_or]
  cases a.testBit i <;> cases m.testBit i <;> cases n.testBit i <;> rfl

theorem getF_lt (w s x : Nat) : getF w s x < 2 ^ w := by
  have h1 : (x >>> s) &&& (2 ^ w - 1) ≤ 2 ^ w - 1 := Nat.and_le_right
  have h2 : 0 < 2 ^ w := Nat.pos_pow_of_pos w (by norm_num)
  unfold getF
  omega

theorem getF_setF_same (w s x t : Nat) (ht : t < 2 ^ w) :
    getF w s (setF w s x t) = t := by
  apply Nat.eq_of_testBit_eq
  intro i
  simp only [getF, setF, Nat.testBit_and, Nat.testBit_shiftRight,
    Nat.testBit_or, testBit_landNot, Nat.testBit_shiftLeft,
    Nat.testBit_two_pow_sub_one, Nat.le_add_right, decide_True,
    Bool.true_and, Nat.add_sub_cancel_left]
  by_cases hw : i < w
  · simp [hw]
  · simp only [hw, decide_False, Bool.and_false, Bool.not_false]
    have : t < 2 ^ i :=
      lt_of_lt_of_le ht (Nat.pow_le_pow_right (by norm_num) (le_of_not_lt hw))
    simp [Nat.testBit_lt_two_pow this]

theorem getF_setF_disjoint (w v s u x t : Nat) (ht : t < 2 ^ w)
    (h : s + w ≤ u ∨ u + v ≤ s) :
    getF v u (setF w s x t) = getF v u x := by
  apply Nat.eq_of_testBit_eq
  intro i
  simp only [getF, setF, Nat.testBit_and, Nat.testBit_shiftRight,
    Nat.testBit_or, testBit_landNot, Nat.testBit_shiftLeft,
    Nat.testBit_two_pow_sub_one]
  by_cases hv : i < v
  · simp only [hv, decide_True, Bool.and_true]
    by_cases hs : s ≤ u + i
    · simp only [hs, decide_True, Bool.true_and]
      have hw : ¬(u + i - s < w) := by omega
      have htb : t.testBit (u + i - s) = false := by
        apply Nat.testBit_lt_two_pow
        exact lt_of_lt_of_le ht (Nat.pow_le_pow_right (by norm_num) (by omega))
      simp [hw, htb]
    · simp [hs]
  · simp [hv]

theorem setF_setF_same (w s x a b : Nat) (ha : a < 2 ^ w) :
    setF w s (setF w s x a) b = setF w s x b := by
  apply Nat.eq_of_testBit_eq
  intro i
  simp only [setF, Nat.testBit_or, testBit_landNot, Nat.testBit_shiftLeft,
    Nat.testBit_two_pow_sub_one]
  by_cases hs : s ≤ i
  · simp only [hs, decide_True, Bool.true_and]
    by_cases hw : i - s < w
    · simp [hw]
    · have hab : a.testBit (i - s) = false := by
        apply Nat.testBit_lt_two_pow
        exact lt_of_lt_of_le ha (Nat.pow_le_pow_right (by norm_num) (by omega))
      simp [hw, hab]
  · simp [hs]

theorem setF_self (w s x : Nat) : setF w s x (getF w s x) = x := by
  apply Nat.eq_of_testBit_eq
  intro i
  simp only [setF, getF, Nat.testBit_or, testBit_landNot,
    Nat.testBit_shiftLeft, Nat.testBit_and, Nat.testBit_shiftRight,
    Nat.testBit_two_pow_sub_one]
  by_cases hs : s ≤ i
  · simp only [hs, decide_True, Bool.true_and]
    by_cases hw : i - s < w
    · have : s + (i - s) = i := by omega
      simp [hw, this]
    · simp [hw]
  · simp [hs]

theorem setF_comm (w v s u x a b : Nat) (ha : a < 2 ^ w) (hb : b < 2 ^ v)
    (h : s + w ≤ u ∨ u + v ≤ s) :
    setF v u (setF w s x a) b = setF w s (setF v u x b) a := by
  apply Nat.eq_of_testBit_eq
  intro i
  simp only [setF, Nat.testBit_or, testBit_landNot, Nat.testBit_shiftLeft,
    Nat.testBit_two_pow_sub_one]
  have hatb : ∀ j, ¬ j < w → a.testBit j = false := by
    intro j hj
    apply Nat.testBit_lt_two_pow
    exact lt_of_lt_of_le ha (Nat.pow_le_pow_right (by norm_num) (by omega))
  have hbtb : ∀ j, ¬ j < v → b.testBit j = false := by
    intro j hj
    apply Nat.testBit_lt_two_pow
    exact lt_of_lt_of_le hb (Nat.pow_le_pow_right (by norm_num) (by omega))
  by_cases hs : s ≤ i <;> by_cases hu : u ≤ i
  · by_cases hw : i - s < w
    · have hbv : ¬ i - u < v := by omega
      simp [hs, hu, hw, hbv, hbtb _ hbv]
    · by_cases hv : i - u < v
      · simp [hs, hu, hv, hw, hatb _ hw]
      · simp [hs, hu, hv, hw, hatb _ hw, hbtb _ hv]
  · simp [hs, hu]
  · simp [hs, hu]
  · simp [hs, hu]

theorem X87.ext_iff (a b : X87) :
    a = b ↔ a.sw = b.sw ∧ a.cw = b.cw ∧ a.tw = b.tw ∧ a.reg = b.reg ∧
      a.fflags = b.fflags ∧ a.frm = b.frm ∧ a.cr0 = b.cr0 ∧
      a.mext = b.mext ∧ a.mf = b.mf := by
  constructor
  · intro h
    subst h
    exact ⟨rfl, rfl, rfl, rfl, rfl, rfl, rfl, rfl, rfl⟩
  · rintro ⟨h1, h2, h3, h4, h5, h6, h7, h8, h9⟩
    cases a
    cases b
    simp_all

theorem and_seven_lt (x : Nat) : x &&& 7 < 8 := by
  have h : x &&& 7 ≤ 7 := Nat.and_le_right
  omega

theorem X87_TAG_eq_getF (tw p : Nat) : X87_TAG tw p = getF 2 (p <<< 1) tw := rfl

theorem x87_set_tag_eq_setF (tw p t : Nat) :
    x87_set_tag tw p t = setF 2 (p <<< 1) tw t := rfl

theorem topOf_eq_getF (sw : Nat) : topOf sw = getF 3 11 sw := rfl

theorem shl1 (p : Nat) : p <<< 1 = 2 * p := by
  rw [Nat.shiftLeft_eq]
  ring

theorem tag_disjoint {p q : Nat} (h : p ≠ q) :
    p <<< 1 + 2 ≤ q <<< 1 ∨ q <<< 1 + 2 ≤ p <<< 1 := by
  rw [shl1, shl1]
  omega

theorem X87_TAG_set_tag_same (tw p t : Nat) (ht : t < 4) :
    X87_TAG (x87_set_tag tw p t) p = t := by
  rw [X87_TAG_eq_getF, x87_set_tag_eq_setF]
  exact getF_setF_same 2 _ tw t ht

theorem X87_TAG_set_tag_ne (tw p q t : Nat) (ht : t < 4) (h : p ≠ q) :
    X87_TAG (x87_set_tag tw p t) q = X87_TAG tw q := by
  rw [X87_TAG_eq_getF, X87_TAG_eq_getF, x87_set_tag_eq_setF]
  exact getF_setF_disjoint 2 2 _ _ tw t ht (tag_disjoint h)

theorem set_tag_set_tag_same (tw p a b : Nat) (ha : a < 4) :
    x87_set_tag (x87_set_tag tw p a) p b = x87_set_tag tw p b := by
  rw [x87_set_tag_eq_setF, x87_set_tag_eq_setF, x87_set_tag_eq_setF]
  exact setF_setF_same 2 _ tw a b ha

theorem set_tag_comm (tw p q a b : Nat) (ha : a < 4) (hb : b < 4) (h : p ≠ q) :
    x87_set_tag (x87_set_tag tw p a) q b = x87_set_tag (x87_set_tag tw q b) p a := by
  simp only [x87_set_tag_eq_setF]
  exact setF_comm 2 2 _ _ tw a b ha hb (tag_disjoint h)

theorem set_tag_self (tw p : Nat) : x87_set_tag tw p (X87_TAG tw p) = tw := by
  rw [x87_set_tag_eq_setF, X87_TAG_eq_getF]
  exact setF_self 2 _ tw

theorem X87_TAG_lt (tw p : Nat) : X87_TAG tw p < 4 := by
  rw [X87_TAG_eq_getF]
  exact getF_lt 2 _ tw

theorem topOf_set_stack_top (s : X87) (top : Nat) (h : top < 8) :
    topOf (x87_set_stack_top s top).sw = top := by
  show getF 3 11 (setF 3 11 s.sw top) = top
  exact getF_setF_same 3 11 s.sw top h

theorem and_seven_eq_mod (x : Nat) : x &&& 7 = x % 8 := by
  have := Nat.and_pow_two_sub_one_eq_mod x 3
  norm_num at this
  exact this

/-- The physical slot of ST(i) is TOP+i reduced mod 8. -/
theorem stToPhys_val (sw i : Nat) :
    (stToPhys sw i).val = (topOf sw + i) % 8 := by
  show ((sw >>> 11) + i) &&& 7 = (((sw >>> 11) &&& 7) + i) % 8
  rw [and_seven_eq_mod, and_seven_eq_mod]
  omega

theorem and_landNot_of_disjoint (f a b : Nat) (h : a &&& b = 0) :
    landNot f a &&& b = f &&& b := by
  apply Nat.eq_of_testBit_eq
  intro i
  simp only [Nat.testBit_and, testBit_landNot]
  cases ha : a.testBit i <;> cases hb : b.testBit i <;> simp_all
  have := congrArg (fun x => Nat.testBit x i) h
  simp [Nat.testBit_and, ha, hb] at this

theorem landNot_and_self (f m : Nat) : landNot f m &&& m = 0 := by
  apply Nat.eq_of_testBit_eq
  intro i
  simp only [Nat.testBit_and, testBit_landNot, Nat.zero_testBit]
  cases f.testBit i <;> cases m.testBit i <;> rfl

theorem harvestStep_cw (f b : Nat) (s : X87) : (harvestStep f b s).cw = s.cw := by
  unfold harvestStep
  split <;> rfl

theorem harvestStep_tw (f b : Nat) (s : X87) : (harvestStep f b s).tw = s.tw := by
  unfold harvestStep
  split <;> rfl

theorem harvestStep_reg (f b : Nat) (s : X87) : (harvestStep f b s).reg = s.reg := by
  unfold harvestStep
  split <;> rfl

theorem harvestStep_frm (f b : Nat) (s : X87) : (harvestStep f b s).frm = s.frm := by
  unfold harvestStep
  split <;> rfl

theorem harvestStep_cr0 (f b : Nat) (s : X87) : (harvestStep f b s).cr0 = s.cr0 := by
  unfold harvestStep
  split <;> rfl

theorem harvestStep_mext (f b : Nat) (s : X87) :
    (harvestStep f b s).mext = s.mext := by
  unfold harvestStep
  split <;> rfl

theorem harvestStep_mf (f b : Nat) (s : X87) : (harvestStep f b s).mf = s.mf := by
  unfold harvestStep
  split <;> rfl

theorem harvestStep_fflags (f b : Nat) (s : X87) :
    (harvestStep f b s).fflags = landNot s.fflags f := by
  unfold harvestStep
  split
  · rfl
  · next h =>
    rw [landNot_eq_self]
    omega

theorem harvestStep_sw (f b : Nat) (s : X87) :
    (harvestStep f b s).sw = s.sw ||| (if s.fflags &&& f ≠ 0 then b else 0) := by
  unfold harvestStep
  split <;> simp_all

theorem harvestStep_and (f b g : Nat) (s : X87) (h : f &&& g = 0) :
    (harvestStep f b s).fflags &&& g = s.fflags &&& g := by
  rw [harvestStep_fflags]
  exact and_landNot_of_disjoint s.fflags f g h

theorem harvest_fflags (s : X87) :
    (x87_harvest s).fflags =
      landNot s.fflags (float_flag_invalid ||| float_flag_overflow |||
        float_flag_underflow ||| float_flag_inexact) := by
  unfold x87_harvest
  rw [harvestStep_fflags, harvestStep_fflags, harvestStep_fflags,
    harvestStep_fflags, landNot_landNot, landNot_landNot, landNot_landNot]
  simp [Nat.lor_assoc]

theorem harvest_sw (s : X87) :
    (x87_harvest s).sw =
      s.sw |||
        (if s.fflags &&& float_flag_invalid ≠ 0 then X87_SW_IE else 0) |||
        (if s.fflags &&& float_flag_overflow ≠ 0 then X87_SW_OE else 0) |||
        (if s.fflags &&& float_flag_underflow ≠ 0 then X87_SW_UE else 0) |||
        (if s.fflags &&& float_flag_inexact ≠ 0 then X87_SW_PE else 0) := by
  unfold x87_harvest
  rw [harvestStep_sw, harvestStep_sw, harvestStep_sw, harvestStep_sw]
  rw [harvestStep_and _ _ _ _ (by decide), harvestStep_and _ _ _ _ (by decide),
    harvestStep_and _ _ _ _ (by decide), harvestStep_and _ _ _ _ (by decide),
    harvestStep_and _ _ _ _ (by decide), harvestStep_and _ _ _ _ (by decide)]

theorem check_fflags (s : X87) :
    (x87_check_exceptions s).2.fflags = (x87_harvest s).fflags := by
  simp only [x87_check_exceptions]
  split
  · split <;> rfl
  · rfl

theorem check_sw (s : X87) :
    (x87_check_exceptions s).2.sw = (x87_harvest s).sw := by
  simp only [x87_check_exceptions]
  split
  · split <;> rfl
  · rfl

theorem check_tw (s : X87) :
    (x87_check_exceptions s).2.tw = s.tw := by
  have h : (x87_harvest s).tw = s.tw := by
    unfold x87_harvest
    rw [harvestStep_tw, harvestStep_tw, harvestStep_tw, harvestStep_tw]
  simp only [x87_check_exceptions]
  split
  · split <;> exact h
  · exact h

theorem check_reg (s : X87) :
    (x87_check_exceptions s).2.reg = s.reg := by
  have h : (x87_harvest s).reg = s.reg := by
    unfold x87_harvest
    rw [harvestStep_reg, harvestStep_reg, harvestStep_reg, harvestStep_reg]
  simp only [x87_check_exceptions]
  split
  · split <;> exact h
  · exact h

theorem check_cw (s : X87) :
    (x87_check_exceptions s).2.cw = s.cw := by
  have h : (x87_harvest s).cw = s.cw := by
    unfold x87_harvest
    rw [harvestStep_cw, harvestStep_cw, harvestStep_cw, harvestStep_cw]
  simp only [x87_check_exceptions]
  split
  · split <;> exact h
  · exact h

/-- C10: every call to `x87_check_exceptions` drains and clears the four
SoftFloat flags it harvests: afterwards the invalid, overflow, underflow
and inexact bits of the flag word are zero, the flag word has lost
exactly those four bits, and the status word is the old status word with
IE, OE, UE, PE OR-ed in exactly when the corresponding flag was pending,
so the sticky SW latches only accumulate and no flag is double-counted
or left behind for a later call. -/
theorem c10_check_exceptions_drains_flags (s : X87) :
    (x87_check_exceptions s).2.fflags &&&
      (float_flag_invalid ||| float_flag_overflow |||
        float_flag_underflow ||| float_flag_inexact) = 0 ∧
    (x87_check_exceptions s).2.fflags =
      landNot s.fflags (float_flag_invalid ||| float_flag_overflow |||
        float_flag_underflow ||| float_flag_inexact) ∧
    (x87_check_exceptions s).2.sw =
      s.sw |||
        (if s.fflags &&& float_flag_invalid ≠ 0 then X87_SW_IE else 0) |||
        (if s.fflags &&& float_flag_overflow ≠ 0 then X87_SW_OE else 0) |||
        (if s.fflags &&& float_flag_underflow ≠ 0 then X87_SW_UE else 0) |||
        (if s.fflags &&& float_flag_inexact ≠ 0 then X87_SW_PE else 0) := by
  refine ⟨?_, ?_, ?_⟩
  · rw [check_fflags, harvest_fflags]
    exact landNot_and_self ..
  · rw [check_fflags, harvest_fflags]
  · rw [check_sw, harvest_sw]

theorem getF_landNot (w s x m : Nat) (h : getF w s m = 0) :
    getF w s (landNot x m) = getF w s x := by
  apply Nat.eq_of_testBit_eq
  intro i
  simp only [getF, Nat.testBit_and, Nat.testBit_shiftRight, testBit_landNot,
    Nat.testBit_two_pow_sub_one]
  by_cases hw : i < w
  · have hm := congrArg (fun z => Nat.testBit z i) h
    simp only [getF, Nat.testBit_and, Nat.testBit_shiftRight,
      Nat.testBit_two_pow_sub_one, Nat.zero_testBit, hw, decide_True,
      Bool.and_true] at hm
    simp [hm, hw]
  · simp [hw]

theorem getF_lor (w s x m : Nat) (h : getF w s m = 0) :
    getF w s (x ||| m) = getF w s x := by
  apply Nat.eq_of_testBit_eq
  intro i
  simp only [getF, Nat.testBit_and, Nat.testBit_shiftRight, Nat.testBit_or,
    Nat.testBit_two_pow_sub_one]
  by_cases hw : i < w
  · have hm := congrArg (fun z => Nat.testBit z i) h
    simp only [getF, Nat.testBit_and, Nat.testBit_shiftRight,
      Nat.testBit_two_pow_sub_one, Nat.zero_testBit, hw, decide_True,
      Bool.and_true] at hm
    simp [hm, hw]
  · simp [hw]

theorem x87_tag_class_lt (v : floatx80) : x87_tag_class v < 4 := by
  unfold x87_tag_class
  split
  · norm_num [X87_TW_ZERO]
  · split <;> norm_num [X87_TW_SPECIAL, X87_TW_VALID]

/-- C9 (amended): writes through `x87_write_stack` with `update_tag` set
preserve the tag-consistency invariant: the written slot's tag is set by
inspection of the written value and every other slot is untouched.
(FCMOVcc with a satisfied condition assigns ST(0) directly, bypassing
`x87_write_stack`; `c9_fcmov_counterexample` shows it does not preserve
the invariant.) -/
theorem c9_write_stack_preserves_tag_consistency (s : X87) (i : Nat)
    (v : floatx80) (h : x87_tagConsistent s) :
    x87_tagConsistent (x87_write_stack s i v true) := by
  intro p hp
  unfold x87_write_stack at hp ⊢
  simp only [if_pos] at hp ⊢
  by_cases hpi : p = stToPhys s.sw i
  · subst hpi
    rw [X87_TAG_set_tag_same _ _ _ (x87_tag_class_lt v)] at hp ⊢
    simp [Function.update_same]
  · have hne : (stToPhys s.sw i).val ≠ p.val := by
      intro hv
      exact hpi (Fin.ext hv.symm)
    rw [X87_TAG_set_tag_ne _ _ _ _ (x87_tag_class_lt v) hne] at hp ⊢
    simp only [Function.update_noteq hpi]
    exact h p hp

/-- C9 (counterexample): from a tag-consistent state with ST(0) = +0
tagged ZERO and ST(1) = 1.0 tagged VALID, FCMOVB with the condition
satisfied copies 1.0 into ST(0) without touching the tag word, leaving
ST(0) tagged ZERO while holding a nonzero value: the invariant is not
preserved. -/
theorem c9_fcmov_counterexample :
    x87_tagConsistent c9state ∧
    ¬ x87_tagConsistent (x87_fcmovb_sti 1 0xc9 c9state) := by
  constructor
  · unfold x87_tagConsistent
    decide
  · unfold x87_tagConsistent
    decide

/-- C9 (witness): the preservation theorem applied at a concrete
tag-consistent state. -/
theorem c9_write_stack_preserves_tag_consistency_witness :
    x87_tagConsistent (x87_write_stack c9state 0 fx80_one true) :=
  c9_write_stack_preserves_tag_consistency c9state 0 fx80_one
    (by unfold x87_tagConsistent; decide)

theorem dec_stack_tw (s : X87) : (x87_dec_stack s).2.tw = s.tw := by
  simp only [x87_dec_stack, x87_set_stack_overflow, x87_set_stack_top]
  split
  · split <;> rfl
  · rfl

theorem dec_stack_reg (s : X87) : (x87_dec_stack s).2.reg = s.reg := by
  simp only [x87_dec_stack, x87_set_stack_overflow, x87_set_stack_top]
  split
  · split <;> rfl
  · rfl

theorem dec_stack_cw (s : X87) : (x87_dec_stack s).2.cw = s.cw := by
  simp only [x87_dec_stack, x87_set_stack_overflow, x87_set_stack_top]
  split
  · split <;> rfl
  · rfl

theorem fld_m32real_value_reg (sf : SoftFloat) (m32 : Nat) (s : X87) :
    (x87_fld_m32real_value sf m32 s).2.reg = s.reg := by
  simp only [x87_fld_m32real_value, raiseFlags]
  split
  · split <;> simp [dec_stack_reg]
  · simp [dec_stack_reg]

theorem fld_m32real_value_tw (sf : SoftFloat) (m32 : Nat) (s : X87) :
    (x87_fld_m32real_value sf m32 s).2.tw = s.tw := by
  simp only [x87_fld_m32real_value, raiseFlags]
  split
  · split <;> simp [dec_stack_tw]
  · simp [dec_stack_tw]

/-- C2 (amended): for `x87_fld_m32real`, when `x87_check_exceptions`
reports failure no register-file or tag-word mutation has been
committed; the TOP field, however, is NOT restored: the handler calls
`x87_dec_stack` before the check, so on failure TOP may be one less
(mod 8) than at entry (`c2_fld_m32real_top_counterexample`). -/
theorem c2_fld_m32real_no_commit_on_failure (sf : SoftFloat) (m32 : Nat)
    (s : X87)
    (h : (x87_check_exceptions (x87_fld_m32real_value sf m32 s).2).1 = false) :
    (x87_fld_m32real sf m32 s).reg = s.reg ∧
    (x87_fld_m32real sf m32 s).tw = s.tw := by
  simp only [x87_fld_m32real, h, Bool.false_eq_true, if_false]
  rw [check_reg, check_tw, fld_m32real_value_reg, fld_m32real_value_tw]
  exact ⟨rfl, rfl⟩

/-- C2 (witness): the no-commit theorem at the concrete failing load
(signaling NaN with IE unmasked). -/
theorem c2_fld_m32real_no_commit_witness :
    (x87_fld_m32real sfQuietNaN 0x7f800001 c2state).reg = c2state.reg ∧
    (x87_fld_m32real sfQuietNaN 0x7f800001 c2state).tw = c2state.tw :=
  c2_fld_m32real_no_commit_on_failure sfQuietNaN 0x7f800001 c2state (by decide)

/-- C2 (counterexample): loading the signaling-NaN float 0x7F800001 with
IE unmasked (CW = 0x037E) makes `x87_check_exceptions` fail, yet TOP has
moved from 0 to 7: the claim that TOP is unchanged whenever the check
fails is false on the code. -/
theorem c2_fld_m32real_top_counterexample :
    (x87_check_exceptions
      (x87_fld_m32real_value sfQuietNaN 0x7f800001 c2state).2).1 = false ∧
    topOf c2state.sw = 0 ∧
    topOf (x87_fld_m32real sfQuietNaN 0x7f800001 c2state).sw = 7 := by
  refine ⟨by decide, by decide, by decide⟩

theorem topOf_c1clear (sw : Nat) : topOf (landNot sw X87_SW_C1) = topOf sw := by
  show getF 3 11 (landNot sw X87_SW_C1) = getF 3 11 sw
  exact getF_landNot 3 11 sw X87_SW_C1 (by decide)

theorem topOf_lor (sw m : Nat) (h : getF 3 11 m = 0) :
    topOf (sw ||| m) = topOf sw := by
  show getF 3 11 (sw ||| m) = getF 3 11 sw
  exact getF_lor 3 11 sw m h

theorem stToPhys_congr (sw1 sw2 : Nat) (h : topOf sw1 = topOf sw2) (i : Nat) :
    stToPhys sw1 i = stToPhys sw2 i := by
  apply Fin.ext
  rw [stToPhys_val, stToPhys_val, h]

theorem empty_sw_congr (s : X87) (sw1 : Nat) (h : topOf sw1 = topOf s.sw)
    (i : Nat) :
    X87_IS_ST_EMPTY { s with sw := sw1 } i = X87_IS_ST_EMPTY s i := by
  unfold X87_IS_ST_EMPTY
  rw [show stToPhys ({ s with sw := sw1 } : X87).sw i = stToPhys s.sw i from
    stToPhys_congr sw1 s.sw h i]

theorem getF_if (c : Prop) [Decidable c] (w s a b : Nat) (ha : getF w s a = 0)
    (hb : getF w s b = 0) : getF w s (if c then a else b) = 0 := by
  split
  · exact ha
  · exact hb

theorem check_topOf (s : X87) :
    topOf (x87_check_exceptions s).2.sw = topOf s.sw := by
  rw [check_sw, harvest_sw]
  rw [topOf_lor _ _ (getF_if _ 3 11 _ _ (by decide) (by decide)),
    topOf_lor _ _ (getF_if _ 3 11 _ _ (by decide) (by decide)),
    topOf_lor _ _ (getF_if _ 3 11 _ _ (by decide) (by decide)),
    topOf_lor _ _ (getF_if _ 3 11 _ _ (by decide) (by decide))]

theorem set_stack_top_tw (s : X87) (t : Nat) :
    (x87_set_stack_top s t).tw = s.tw := rfl

/-- C3 (amended): FDECSTP never updates the tag word and rotates TOP by
−1 (mod 8) except when its overflow pre-check fails with IM unmasked, in
which case TOP is left unchanged — in particular it still rotates on an
occupied ST(7) when IM is masked; FINCSTP rotates TOP by +1 (mod 8) but
tags the vacated slot (the old TOP) EMPTY through the generic pop
primitive, leaving every other slot's tag — including the slot that
becomes the new TOP — unchanged, also when the old TOP is EMPTY with IM
masked; only with an EMPTY old TOP and IM unmasked does it leave both
TOP and the tag word unchanged. -/
theorem c3_incdecstp_rotate_and_tags (s : X87) :
    ((x87_fdecstp s).tw = s.tw) ∧
    (X87_IS_ST_EMPTY s 7 = true →
      topOf (x87_fdecstp s).sw = (topOf s.sw + 7) % 8) ∧
    (X87_IS_ST_EMPTY s 7 = false → landNot X87_CW_IM s.cw ≠ 0 →
      topOf (x87_fdecstp s).sw = topOf s.sw) ∧
    (X87_IS_ST_EMPTY s 0 = false →
      (x87_fincstp s).tw = x87_set_tag s.tw (stToPhys s.sw 0).val X87_TW_EMPTY ∧
      topOf (x87_fincstp s).sw = (topOf s.sw + 1) % 8 ∧
      ∀ q : Fin 8, q ≠ stToPhys s.sw 0 →
        X87_TAG (x87_fincstp s).tw q.val = X87_TAG s.tw q.val) ∧
    (X87_IS_ST_EMPTY s 0 = true → landNot X87_CW_IM s.cw ≠ 0 →
      (x87_fincstp s).tw = s.tw ∧ topOf (x87_fincstp s).sw = topOf s.sw) ∧
    (X87_IS_ST_EMPTY s 7 = false → landNot X87_CW_IM s.cw = 0 →
      topOf (x87_fdecstp s).sw = (topOf s.sw + 7) % 8) ∧
    (X87_IS_ST_EMPTY s 0 = true → landNot X87_CW_IM s.cw = 0 →
      (x87_fincstp s).tw = x87_set_tag s.tw (stToPhys s.sw 0).val X87_TW_EMPTY ∧
      topOf (x87_fincstp s).sw = (topOf s.sw + 1) % 8 ∧
      ∀ q : Fin 8, q ≠ stToPhys s.sw 0 →
        X87_TAG (x87_fincstp s).tw q.val = X87_TAG s.tw q.val) := by
  have hc1 : topOf (landNot s.sw X87_SW_C1) = topOf s.sw := topOf_c1clear s.sw
  have hemp7 := empty_sw_congr s (landNot s.sw X87_SW_C1) hc1 7
  have hemp0 := empty_sw_congr s (landNot s.sw X87_SW_C1) hc1 0
  have hphys0 := stToPhys_congr (landNot s.sw X87_SW_C1) s.sw hc1 0
  have hund : topOf (landNot (landNot s.sw X87_SW_C1) X87_SW_C1 |||
      (X87_SW_IE ||| X87_SW_SF)) = topOf s.sw := by
    rw [topOf_lor _ _ (by decide), landNot_landNot]
    show getF 3 11 (landNot s.sw (X87_SW_C1 ||| X87_SW_C1)) = getF 3 11 s.sw
    exact getF_landNot _ _ _ _ (by decide)
  have hphu := stToPhys_congr (landNot (landNot s.sw X87_SW_C1) X87_SW_C1 |||
    (X87_SW_IE ||| X87_SW_SF)) s.sw hund 0
  refine ⟨?_, ?_, ?_, ?_, ?_, ?_, ?_⟩
  · simp only [x87_fdecstp]
    rw [check_tw, dec_stack_tw]
  · intro h7
    simp only [x87_fdecstp, x87_dec_stack, hemp7, h7]
    rw [check_topOf]
    rw [if_neg (by simp)]
    rw [topOf_set_stack_top _ _ (stToPhys _ 7).isLt, stToPhys_val, hc1]
  · intro h7 him
    simp only [x87_fdecstp, x87_dec_stack, hemp7, h7, x87_set_stack_overflow]
    rw [check_topOf]
    rw [if_pos (by simp), if_pos him]
    rw [topOf_lor _ _ (by decide), hc1]
  · intro h0
    simp only [x87_fincstp, x87_inc_stack, hemp0, h0]
    rw [if_neg (by simp)]
    refine ⟨?_, ?_, ?_⟩
    · rw [check_tw, set_stack_top_tw, hphys0]
    · rw [check_topOf]
      rw [topOf_set_stack_top _ _ (stToPhys _ 1).isLt, stToPhys_val, hc1]
    · intro q hq
      rw [check_tw, set_stack_top_tw]
      show X87_TAG (x87_set_tag s.tw
        (stToPhys (landNot s.sw X87_SW_C1) 0).val X87_TW_EMPTY) q.val =
        X87_TAG s.tw q.val
      rw [hphys0]
      refine X87_TAG_set_tag_ne _ _ _ _ (by norm_num [X87_TW_EMPTY]) ?_
      intro hv
      exact hq (Fin.ext hv.symm)
  · intro h0 him
    simp only [x87_fincstp, x87_inc_stack, hemp0, h0, x87_set_stack_underflow]
    rw [if_pos (by simp), if_pos him]
    refine ⟨by rw [check_tw], ?_⟩
    rw [check_topOf]
    exact hund
  · intro h7 him0
    simp only [x87_fdecstp, x87_dec_stack, hemp7, h7, x87_set_stack_overflow]
    rw [check_topOf]
    rw [if_pos (by simp), if_neg (by simp [him0])]
    rw [topOf_set_stack_top _ _ (stToPhys _ 7).isLt, stToPhys_val]
    rw [topOf_lor _ _ (by decide), hc1]
  · intro h0 him0
    simp only [x87_fincstp, x87_inc_stack, hemp0, h0, x87_set_stack_underflow]
    rw [if_pos (by simp), if_neg (by simp [him0])]
    refine ⟨?_, ?_, ?_⟩
    · rw [check_tw, set_stack_top_tw, hphu]
    · rw [check_topOf]
      rw [topOf_set_stack_top _ _ (stToPhys _ 1).isLt, stToPhys_val, hund]
    · intro q hq
      rw [check_tw, set_stack_top_tw]
      show X87_TAG (x87_set_tag s.tw
        (stToPhys (landNot (landNot s.sw X87_SW_C1) X87_SW_C1 |||
          (X87_SW_IE ||| X87_SW_SF)) 0).val X87_TW_EMPTY) q.val =
        X87_TAG s.tw q.val
      rw [hphu]
      refine X87_TAG_set_tag_ne _ _ _ _ (by norm_num [X87_TW_EMPTY]) ?_
      intro hv
      exact hq (Fin.ext hv.symm)

/-- C3 (counterexample): from the state after FINIT; FLD1 (TOP = 7, slot
7 tagged VALID), FINCSTP changes the tag word from 0x3FFF to 0xFFFF: the
vacated slot is re-tagged EMPTY, so the tag word does not keep its
pre-instruction value. -/
theorem c3_fincstp_tag_counterexample :
    c3state.tw = 0x3fff ∧ (x87_fincstp c3state).tw = 0xffff := by
  exact ⟨by decide, by decide⟩

/-- C3 (witness): the amended theorem at the concrete post-FLD1 state
(occupied TOP) and at the reset state (EMPTY TOP with IM masked). -/
theorem c3_incdecstp_witness :
    ((x87_fincstp c3state).tw =
      x87_set_tag c3state.tw (stToPhys c3state.sw 0).val X87_TW_EMPTY ∧
    topOf (x87_fincstp c3state).sw = (topOf c3state.sw + 1) % 8) ∧
    topOf (x87_fincstp x87_initial).sw = (topOf x87_initial.sw + 1) % 8 :=
  ⟨⟨((c3_incdecstp_rotate_and_tags c3state).2.2.2.1 (by decide)).1,
    ((c3_incdecstp_rotate_and_tags c3state).2.2.2.1 (by decide)).2.1⟩,
   ((c3_incdecstp_rotate_and_tags x87_initial).2.2.2.2.2.2 (by decide)
      (by decide)).2.1⟩

theorem and_lor_eq_zero_left (f a b : Nat) (h : f &&& (a ||| b) = 0) :
    f &&& a = 0 := by
  apply Nat.eq_of_testBit_eq
  intro i
  have hb := congrArg (fun z => Nat.testBit z i) h
  simp only [Nat.testBit_and, Nat.testBit_or, Nat.zero_testBit] at hb ⊢
  cases hf : f.testBit i <;> cases ha : a.testBit i <;> simp_all

theorem and_lor_eq_zero_right (f a b : Nat) (h : f &&& (a ||| b) = 0) :
    f &&& b = 0 := by
  apply Nat.eq_of_testBit_eq
  intro i
  have hb := congrArg (fun z => Nat.testBit z i) h
  simp only [Nat.testBit_and, Nat.testBit_or, Nat.zero_testBit] at hb ⊢
  cases hf : f.testBit i <;> cases ha : b.testBit i <;> simp_all

theorem harvestStep_id (f b : Nat) (s : X87) (h : s.fflags &&& f = 0) :
    harvestStep f b s = s := by
  unfold harvestStep
  rw [if_neg]
  simp [h]

theorem check_ok_id (s : X87)
    (hff : s.fflags &&& (float_flag_invalid ||| float_flag_overflow |||
      float_flag_underflow ||| float_flag_inexact) = 0)
    (hpend : landNot s.sw s.cw &&& 0x3f = 0) :
    x87_check_exceptions s = (true, s) := by
  have h1 : s.fflags &&& float_flag_invalid = 0 :=
    and_lor_eq_zero_left _ _ _ (and_lor_eq_zero_left _ _ _
      (and_lor_eq_zero_left _ _ _ hff))
  have h2 : s.fflags &&& float_flag_overflow = 0 :=
    and_lor_eq_zero_right _ _ _ (and_lor_eq_zero_left _ _ _
      (and_lor_eq_zero_left _ _ _ hff))
  have h3 : s.fflags &&& float_flag_underflow = 0 :=
    and_lor_eq_zero_right _ _ _ (and_lor_eq_zero_left _ _ _ hff)
  have h4 : s.fflags &&& float_flag_inexact = 0 :=
    and_lor_eq_zero_right _ _ _ hff
  have harv : x87_harvest s = s := by
    unfold x87_harvest
    rw [harvestStep_id _ _ _ h1, harvestStep_id _ _ _ h2,
      harvestStep_id _ _ _ h3, harvestStep_id _ _ _ h4]
  simp only [x87_check_exceptions, harv, hpend]
  simp

/-- The committed effect of FXCH on operands that are both non-EMPTY
when no exception is pending: swap the two register values and the two
tags, everything else unchanged. -/
theorem fxch_spec (modrm : Nat) (s : X87)
    (h0 : X87_IS_ST_EMPTY s 0 = false)
    (hi : X87_IS_ST_EMPTY s (modrm &&& 7) = false)
    (hchk : x87_check_exceptions s = (true, s)) :
    x87_fxch_sti modrm s =
      { s with
        reg := Function.update (Function.update s.reg (stToPhys s.sw 0)
          (STx s (modrm &&& 7))) (stToPhys s.sw (modrm &&& 7)) (STx s 0)
        tw := x87_set_tag (x87_set_tag s.tw (stToPhys s.sw 0).val
          (X87_TAG s.tw (stToPhys s.sw (modrm &&& 7)).val))
          (stToPhys s.sw (modrm &&& 7)).val
          (X87_TAG s.tw (stToPhys s.sw 0).val) } := by
  simp only [x87_fxch_sti, h0, hi, hchk, Bool.false_eq_true, if_false]
  rfl

/-- C5 (amended): FXCH is an involution on states in which ST(0) and the
operand ST(i) are both non-EMPTY, the four harvested SoftFloat flags are
clear, and no unmasked exception is pending (so both executions commit
the swap): executing `x87_fxch_sti` twice with the same operand restores
the original state.  `c5_fxch_counterexample` shows the unrestricted
claim fails on an EMPTY operand. -/
theorem c5_fxch_involution_on_loaded_operands (modrm : Nat) (s : X87)
    (h0 : X87_IS_ST_EMPTY s 0 = false)
    (hi : X87_IS_ST_EMPTY s (modrm &&& 7) = false)
    (hff : s.fflags &&& (float_flag_invalid ||| float_flag_overflow |||
      float_flag_underflow ||| float_flag_inexact) = 0)
    (hpend : landNot s.sw s.cw &&& 0x3f = 0) :
    x87_fxch_sti modrm (x87_fxch_sti modrm s) = s := by
  have hchk := check_ok_id s hff hpend
  have e1 := fxch_spec modrm s h0 hi hchk
  have ht0 : ¬ X87_TAG s.tw (stToPhys s.sw 0).val = X87_TW_EMPTY := by
    simpa [X87_IS_ST_EMPTY] using h0
  have hti : ¬ X87_TAG s.tw (stToPhys s.sw (modrm &&& 7)).val = X87_TW_EMPTY := by
    simpa [X87_IS_ST_EMPTY] using hi
  by_cases hp : stToPhys s.sw 0 = stToPhys s.sw (modrm &&& 7)
  · have e0 : x87_fxch_sti modrm s = s := by
      rw [e1, X87.ext_iff]
      refine ⟨rfl, rfl, ?_, ?_, rfl, rfl, rfl, rfl, rfl⟩
      · show x87_set_tag (x87_set_tag s.tw (stToPhys s.sw 0).val
          (X87_TAG s.tw (stToPhys s.sw (modrm &&& 7)).val))
          (stToPhys s.sw (modrm &&& 7)).val
          (X87_TAG s.tw (stToPhys s.sw 0).val) = s.tw
        rw [← hp, set_tag_set_tag_same _ _ _ _ (X87_TAG_lt s.tw _),
          set_tag_self]
      · show Function.update (Function.update s.reg (stToPhys s.sw 0)
          (STx s (modrm &&& 7))) (stToPhys s.sw (modrm &&& 7)) (STx s 0)
          = s.reg
        unfold STx
        rw [← hp, Function.update_idem, Function.update_eq_self]
    rw [e0, e0]
  · have hpv : (stToPhys s.sw 0).val ≠ (stToPhys s.sw (modrm &&& 7)).val := by
      intro hv
      exact hp (Fin.ext hv)
    have hpv2 : (stToPhys s.sw (modrm &&& 7)).val ≠ (stToPhys s.sw 0).val :=
      fun hv => hpv hv.symm
    rw [e1]
    set s1 : X87 :=
      { s with
        reg := Function.update (Function.update s.reg (stToPhys s.sw 0)
          (STx s (modrm &&& 7))) (stToPhys s.sw (modrm &&& 7)) (STx s 0)
        tw := x87_set_tag (x87_set_tag s.tw (stToPhys s.sw 0).val
          (X87_TAG s.tw (stToPhys s.sw (modrm &&& 7)).val))
          (stToPhys s.sw (modrm &&& 7)).val
          (X87_TAG s.tw (stToPhys s.sw 0).val) } with hs1
    have hs1tag0 : X87_TAG s1.tw (stToPhys s.sw 0).val =
        X87_TAG s.tw (stToPhys s.sw (modrm &&& 7)).val := by
      rw [hs1]
      show X87_TAG (x87_set_tag (x87_set_tag s.tw (stToPhys s.sw 0).val
        (X87_TAG s.tw (stToPhys s.sw (modrm &&& 7)).val))
        (stToPhys s.sw (modrm &&& 7)).val
        (X87_TAG s.tw (stToPhys s.sw 0).val)) (stToPhys s.sw 0).val = _
      rw [X87_TAG_set_tag_ne _ _ _ _ (X87_TAG_lt s.tw _) hpv2,
        X87_TAG_set_tag_same _ _ _ (X87_TAG_lt s.tw _)]
    have hs1tagi : X87_TAG s1.tw (stToPhys s.sw (modrm &&& 7)).val =
        X87_TAG s.tw (stToPhys s.sw 0).val := by
      rw [hs1]
      show X87_TAG (x87_set_tag (x87_set_tag s.tw (stToPhys s.sw 0).val
        (X87_TAG s.tw (stToPhys s.sw (modrm &&& 7)).val))
        (stToPhys s.sw (modrm &&& 7)).val
        (X87_TAG s.tw (stToPhys s.sw 0).val))
        (stToPhys s.sw (modrm &&& 7)).val = _
      rw [X87_TAG_set_tag_same _ _ _ (X87_TAG_lt s.tw _)]
    have h0' : X87_IS_ST_EMPTY s1 0 = false := by
      show (X87_TAG s1.tw (stToPhys s1.sw 0).val == X87_TW_EMPTY) = false
      have : stToPhys s1.sw 0 = stToPhys s.sw 0 := rfl
      rw [this, hs1tag0]
      simpa using hti
    have hi' : X87_IS_ST_EMPTY s1 (modrm &&& 7) = false := by
      show (X87_TAG s1.tw (stToPhys s1.sw (modrm &&& 7)).val == X87_TW_EMPTY)
        = false
      have : stToPhys s1.sw (modrm &&& 7) = stToPhys s.sw (modrm &&& 7) := rfl
      rw [this, hs1tagi]
      simpa using ht0
    have hchk1 : x87_check_exceptions s1 = (true, s1) :=
      check_ok_id s1 hff hpend
    have e2 := fxch_spec modrm s1 h0' hi' hchk1
    rw [e2, X87.ext_iff]
    refine ⟨rfl, rfl, ?_, ?_, rfl, rfl, rfl, rfl, rfl⟩
    · show x87_set_tag (x87_set_tag s1.tw (stToPhys s1.sw 0).val
        (X87_TAG s1.tw (stToPhys s1.sw (modrm &&& 7)).val))
        (stToPhys s1.sw (modrm &&& 7)).val
        (X87_TAG s1.tw (stToPhys s1.sw 0).val) = s.tw
      have hw0 : stToPhys s1.sw 0 = stToPhys s.sw 0 := rfl
      have hwi : stToPhys s1.sw (modrm &&& 7) = stToPhys s.sw (modrm &&& 7) :=
        rfl
      rw [hw0, hwi, hs1tag0, hs1tagi, hs1]
      rw [set_tag_comm _ _ _ _ _ (X87_TAG_lt s.tw _) (X87_TAG_lt s.tw _) hpv2]
      rw [set_tag_set_tag_same _ _ _ _ (X87_TAG_lt s.tw _)]
      rw [set_tag_set_tag_same _ _ _ _ (X87_TAG_lt s.tw _)]
      rw [set_tag_self, set_tag_self]
    · show Function.update (Function.update s1.reg (stToPhys s1.sw 0)
        (STx s1 (modrm &&& 7))) (stToPhys s1.sw (modrm &&& 7)) (STx s1 0)
        = s.reg
      have hstx_i : STx s1 (modrm &&& 7) = STx s 0 := by
        show s1.reg (stToPhys s1.sw (modrm &&& 7)) = STx s 0
        rw [hs1]
        exact Function.update_same _ _ _
      have hstx_0 : STx s1 0 = STx s (modrm &&& 7) := by
        show s1.reg (stToPhys s1.sw 0) = STx s (modrm &&& 7)
        rw [hs1]
        show Function.update (Function.update s.reg (stToPhys s.sw 0)
          (STx s (modrm &&& 7))) (stToPhys s.sw (modrm &&& 7)) (STx s 0)
          (stToPhys s.sw 0) = STx s (modrm &&& 7)
        rw [Function.update_noteq hp]
        exact Function.update_same _ _ _
      have hw0 : stToPhys s1.sw 0 = stToPhys s.sw 0 := rfl
      have hwi : stToPhys s1.sw (modrm &&& 7) = stToPhys s.sw (modrm &&& 7) :=
        rfl
      rw [hw0, hwi, hstx_i, hstx_0, hs1]
      funext x
      simp only [Function.update_apply, STx]
      split_ifs <;> simp_all

/-- C5 (counterexample): FXCH is not an involution on every state: from
the freshly reset state (all slots EMPTY, exceptions masked) `FXCH
ST(1); FXCH ST(1)` does not restore the original state — the first FXCH
replaces both EMPTY operands with indefinite-NaN, tags them SPECIAL and
latches IE|SF. -/
theorem c5_fxch_counterexample :
    x87_fxch_sti 0xc9 (x87_fxch_sti 0xc9 x87_initial) ≠ x87_initial := by
  intro h
  exact absurd (congrArg X87.tw h) (by decide)

/-- C5 (witness): the involution theorem at a concrete state with ST(0)
and ST(1) loaded. -/
theorem c5_fxch_involution_witness :
    x87_fxch_sti 0xc9 (x87_fxch_sti 0xc9 c9state) = c9state :=
  c5_fxch_involution_on_loaded_operands 0xc9 c9state (by decide) (by decide)
    (by decide) (by decide)

theorem dec_stack_ok (s : X87) (h : X87_IS_ST_EMPTY s 7 = true) :
    x87_dec_stack s = (true, x87_set_stack_top s (stToPhys s.sw 7).val) := by
  unfold x87_dec_stack
  rw [if_neg]
  simp [h]

theorem pending_low_congr (sw1 sw2 cw : Nat) (h : getF 6 0 sw1 = getF 6 0 sw2) :
    landNot sw1 cw &&& 63 = landNot sw2 cw &&& 63 := by
  apply Nat.eq_of_testBit_eq
  intro i
  have h63 : (63 : Nat) = 2 ^ 6 - 1 := rfl
  rw [h63]
  simp only [Nat.testBit_and, testBit_landNot, Nat.testBit_two_pow_sub_one]
  by_cases h6 : i < 6
  · have := congrArg (fun z => Nat.testBit z i) h
    simp only [getF, Nat.testBit_and, Nat.testBit_shiftRight, Nat.zero_add,
      Nat.testBit_two_pow_sub_one, h6, decide_True, Bool.and_true] at this
    rw [this]
  · simp [h6]

theorem const_commit_state_low (s : X87) :
    getF 6 0 (landNot (x87_set_stack_top s (stToPhys s.sw 7).val).sw
      X87_SW_C1) = getF 6 0 s.sw := by
  rw [getF_landNot _ _ _ _ (by decide)]
  show getF 6 0 (setF 3 11 s.sw (stToPhys s.sw 7).val) = getF 6 0 s.sw
  exact getF_setF_disjoint 3 6 11 0 s.sw _ (stToPhys s.sw 7).isLt
    (Or.inr (by norm_num))

/-- C6 (amended): on a successful push with no pending exception, the
low 64-bit mantissa each irrational-constant load writes depends on the
RC field as follows: FLDPI, FLDL2E, FLDLG2 and FLDLN2 write the
incremented low word under round-nearest (RC=00) and round-up (RC=10)
and the truncated one under round-down (RC=01) and round-to-zero
(RC=11); FLDL2T, however, writes the incremented low word only under
round-up — under round-nearest it writes the truncated one
(`c6_fldl2t_nearest_counterexample`). -/
theorem c6_constant_load_low_words (s : X87)
    (hempty : X87_IS_ST_EMPTY s 7 = true)
    (hff : s.fflags &&& (float_flag_invalid ||| float_flag_overflow |||
      float_flag_underflow ||| float_flag_inexact) = 0)
    (hpend : landNot s.sw s.cw &&& 0x3f = 0) :
    STx (x87_fldpi s) 0 = ⟨0x4000,
      if X87_RC s.cw = X87_CW_RC_UP ∨ X87_RC s.cw = X87_CW_RC_NEAREST
      then 0xc90fdaa22168c235 else 0xc90fdaa22168c234⟩ ∧
    STx (x87_fldl2e s) 0 = ⟨0x3fff,
      if X87_RC s.cw = X87_CW_RC_UP ∨ X87_RC s.cw = X87_CW_RC_NEAREST
      then 0xb8aa3b295c17f0bc else 0xb8aa3b295c17f0bb⟩ ∧
    STx (x87_fldlg2 s) 0 = ⟨0x3ffd,
      if X87_RC s.cw = X87_CW_RC_UP ∨ X87_RC s.cw = X87_CW_RC_NEAREST
      then 0x9a209a84fbcff799 else 0x9a209a84fbcff798⟩ ∧
    STx (x87_fldln2 s) 0 = ⟨0x3ffe,
      if X87_RC s.cw = X87_CW_RC_UP ∨ X87_RC s.cw = X87_CW_RC_NEAREST
      then 0xb17217f7d1cf79ac else 0xb17217f7d1cf79ab⟩ ∧
    STx (x87_fldl2t s) 0 = ⟨0x4000,
      if X87_RC s.cw = X87_CW_RC_UP
      then 0xd49a784bcd1b8aff else 0xd49a784bcd1b8afe⟩ := by
  have hdec := dec_stack_ok s hempty
  have hchk : x87_check_exceptions
      { x87_set_stack_top s (stToPhys s.sw 7).val with
        sw := landNot (x87_set_stack_top s (stToPhys s.sw 7).val).sw
          X87_SW_C1 } =
      (true, { x87_set_stack_top s (stToPhys s.sw 7).val with
        sw := landNot (x87_set_stack_top s (stToPhys s.sw 7).val).sw
          X87_SW_C1 }) := by
    refine check_ok_id _ hff ?_
    show landNot (landNot (x87_set_stack_top s (stToPhys s.sw 7).val).sw
      X87_SW_C1) s.cw &&& 0x3f = 0
    rw [pending_low_congr _ s.sw s.cw (const_commit_state_low s)]
    exact hpend
  refine ⟨?_, ?_, ?_, ?_, ?_⟩ <;>
    · simp only [x87_fldpi, x87_fldl2e, x87_fldlg2, x87_fldln2, x87_fldl2t,
        hdec, hchk, if_pos, STx, x87_write_stack, Bool.false_eq_true, if_false,
        Function.update_same]
      rfl

/-- C6 (counterexample): under round-nearest (the reset rounding mode),
FLDL2T writes the truncated low word 0xD49A784BCD1B8AFE, not the
incremented one — the claimed nearest-chooses-incremented rule fails for
FLDL2T. -/
theorem c6_fldl2t_nearest_counterexample :
    X87_RC x87_initial.cw = X87_CW_RC_NEAREST ∧
    STx (x87_fldl2t x87_initial) 0 = ⟨0x4000, 0xd49a784bcd1b8afe⟩ ∧
    (⟨0x4000, 0xd49a784bcd1b8afe⟩ : floatx80) ≠ ⟨0x4000, 0xd49a784bcd1b8aff⟩ := by
  refine ⟨by decide, by decide, by decide⟩

/-- C6 (witness): the constant-load theorem at the reset state. -/
theorem c6_constant_load_low_words_witness :
    STx (x87_fldpi x87_initial) 0 = ⟨0x4000,
      if X87_RC x87_initial.cw = X87_CW_RC_UP ∨
        X87_RC x87_initial.cw = X87_CW_RC_NEAREST
      then 0xc90fdaa22168c235 else 0xc90fdaa22168c234⟩ ∧
    STx (x87_fldl2t x87_initial) 0 = ⟨0x4000,
      if X87_RC x87_initial.cw = X87_CW_RC_UP
      then 0xd49a784bcd1b8aff else 0xd49a784bcd1b8afe⟩ :=
  ⟨(c6_constant_load_low_words x87_initial (by decide) (by decide)
      (by decide)).1,
   (c6_constant_load_low_words x87_initial (by decide) (by decide)
      (by decide)).2.2.2.2⟩

/-- C1: evaluating FINIT; FLDZ; FLD1; FDIV ST(0),ST(1) (so ST(0) ← 1.0 /
+0.0 with CW = 0x037F, ZM masked): ST(0) becomes +infinity and no #MF is
raised, but SW.ZE stays 0 — the SoftFloat divide-by-zero flag is raised
and left sitting in the flag word, never harvested into SW
(`x87_check_exceptions` only harvests invalid/overflow/underflow/
inexact, and no handler sets ZE on division). -/
theorem c1_fdiv_by_zero_eval :
    STx (x87_fdiv_st_sti sfDivZero 0xf1
      (x87_fld1 (x87_fldz (x87_finit x87_initial)))) 0 = fx80_pinf ∧
    (x87_fdiv_st_sti sfDivZero 0xf1
      (x87_fld1 (x87_fldz (x87_finit x87_initial)))).sw &&& X87_SW_ZE = 0 ∧
    (x87_fdiv_st_sti sfDivZero 0xf1
      (x87_fld1 (x87_fldz (x87_finit x87_initial)))).mf = false ∧
    (x87_fdiv_st_sti sfDivZero 0xf1
      (x87_fld1 (x87_fldz (x87_finit x87_initial)))).fflags &&&
        float_flag_divbyzero ≠ 0 := by
  refine ⟨by decide, by decide, by decide, by decide⟩

/-- C7: FIST m16int of ST(0) = 100000.0 (finite, beyond the 16-bit
signed range) writes the integer indefinite 0x8000 (−32768) but leaves
SW.IE clear: the out-of-range branch only substitutes the indefinite
value and raises no invalid exception (the comparisons of an ordered
operand raise no SoftFloat flags, and the handler sets no SW bit). -/
theorem c7_fist_out_of_range_eval :
    (x87_fist_m16int sfStub c7state).2 = some (-32768) ∧
    (x87_fist_m16int sfStub c7state).1.sw &&& X87_SW_IE = 0 := by
  refine ⟨by decide, by decide⟩

/-- C8: the ADD/SUB pre-check polarity.  FADD of +∞ and −∞ takes the
pre-check branch (IE latched, indefinite-NaN) as claimed; but FSUB uses
the identical sign-bits-differ test, so the mathematically valid
+∞ − (−∞) also takes the IE/indefinite-NaN branch, while the invalid
+∞ − (+∞) falls through to the arithmetic kernel (the sentinel SoftFloat
subtraction result is committed and no IE is latched by the handler). -/
theorem c8_sub_infinity_precheck_eval :
    STx (x87_fadd_st_sti sfStub 0xc1 (c8state fx80_ninf)) 0 = fx80_inan ∧
    (x87_fadd_st_sti sfStub 0xc1 (c8state fx80_ninf)).sw &&& X87_SW_IE ≠ 0 ∧
    STx (x87_fsub_st_sti sfStub 0xe1 (c8state fx80_ninf)) 0 = fx80_inan ∧
    (x87_fsub_st_sti sfStub 0xe1 (c8state fx80_ninf)).sw &&& X87_SW_IE ≠ 0 ∧
    STx (x87_fsub_st_sti sfStub 0xe1 (c8state fx80_pinf)) 0 = fx80_zero ∧
    (x87_fsub_st_sti sfStub 0xe1 (c8state fx80_pinf)).sw &&& X87_SW_IE = 0 := by
  refine ⟨by decide, by decide, by decide, by decide, by decide, by decide⟩

theorem trunc64_eq (x : Nat) (h : x < 18446744073709551616) : trunc64 x = x :=
  Nat.mod_eq_of_lt h

theorem encL_lt (k n : Nat) : encL k n < 16 ^ k := by
  induction k generalizing n with
  | zero => simp [encL]
  | succ k ih =>
    have h1 : n % 10 < 10 := Nat.mod_lt _ (by norm_num)
    have h2 : encL k (n / 10) < 16 ^ k := ih (n / 10)
    have h3 : 16 ^ (k + 1) = 16 * 16 ^ k := by
      rw [Nat.pow_succ]
      ring
    simp only [encL]
    omega

theorem packLoop_spec (k : Nat) : ∀ (sh u acc : Nat),
    acc + 2 ^ sh * encL k u < 18446744073709551616 →
    packLoop k sh (u, acc) = (u / 10 ^ k, acc + 2 ^ sh * encL k u) := by
  induction k with
  | zero =>
    intro sh u acc _
    simp [packLoop, encL]
  | succ k ih =>
    intro sh u acc hb
    have henc : encL (k + 1) u = u % 10 + 16 * encL k (u / 10) := rfl
    have hle : u % 10 * 2 ^ sh ≤ 2 ^ sh * encL (k + 1) u := by
      rw [henc]
      calc u % 10 * 2 ^ sh = 2 ^ sh * (u % 10) := by ring
      _ ≤ 2 ^ sh * (u % 10 + 16 * encL k (u / 10)) :=
        Nat.mul_le_mul_left _ (by omega)
    have hsmall : acc + u % 10 * 2 ^ sh < 18446744073709551616 := by omega
    have hstep : packLoop (k + 1) sh (u, acc) =
        packLoop k (sh + 4) (u / 10, acc + u % 10 * 2 ^ sh) := by
      simp only [packLoop, Nat.shiftLeft_eq]
      rw [trunc64_eq _ hsmall]
    rw [hstep]
    have harg : acc + u % 10 * 2 ^ sh + 2 ^ (sh + 4) * encL k (u / 10) =
        acc + 2 ^ sh * encL (k + 1) u := by
      rw [henc, Nat.pow_add]
      ring
    rw [ih (sh + 4) (u / 10) (acc + u % 10 * 2 ^ sh) (by omega)]
    rw [harg]
    have hdiv : u / 10 / 10 ^ k = u / 10 ^ (k + 1) := by
      rw [Nat.div_div_eq_div_mul, Nat.pow_succ]
      ring_nf
    rw [hdiv]

theorem decL_succ_high (k : Nat) : ∀ b : Nat,
    decL (k + 1) b = decL k b + (b / 16 ^ k % 16) * 10 ^ k := by
  induction k with
  | zero =>
    intro b
    simp [decL]
  | succ k ih =>
    intro b
    have h1 : decL (k + 2) b = 10 * decL (k + 1) (b / 16) + b % 16 := rfl
    have h2 : decL (k + 1) b = 10 * decL k (b / 16) + b % 16 := rfl
    rw [h1, h2, ih (b / 16)]
    have h3 : b / 16 / 16 ^ k = b / 16 ^ (k + 1) := by
      rw [Nat.div_div_eq_div_mul, Nat.pow_succ]
      ring_nf
    rw [h3, Nat.pow_succ]
    ring

theorem decL_encL (k n : Nat) : decL k (encL k n) = n % 10 ^ k := by
  induction k generalizing n with
  | zero => simp [decL, encL, Nat.mod_one]
  | succ k ih =>
    have henc : encL (k + 1) n = n % 10 + 16 * encL k (n / 10) := rfl
    have hdec : decL (k + 1) (encL (k + 1) n) =
        10 * decL k (encL (k + 1) n / 16) + encL (k + 1) n % 16 := rfl
    have hd : encL (k + 1) n / 16 = encL k (n / 10) := by
      rw [henc, Nat.add_mul_div_left _ _ (by norm_num : (0 : Nat) < 16)]
      have h0 : n % 10 / 16 = 0 := Nat.div_eq_of_lt (by omega)
      omega
    have hm : encL (k + 1) n % 16 = n % 10 := by
      rw [henc, Nat.add_mul_mod_self_left]
      exact Nat.mod_eq_of_lt (by omega)
    rw [hdec, hd, hm, ih]
    have h10 : (10 : Nat) ^ (k + 1) = 10 * 10 ^ k := by
      rw [Nat.pow_succ]
      ring
    rw [h10, Nat.mod_mul]
    ring

theorem unpackLoop_spec (k : Nat) : ∀ (low m : Nat),
    m * 10 ^ k + decL k low < 18446744073709551616 →
    unpackLoop k low m = m * 10 ^ k + decL k low := by
  induction k with
  | zero =>
    intro low m _
    simp [unpackLoop, decL]
  | succ k ih =>
    intro low m hb
    have hnib : (low >>> (4 * k)) &&& 0xf = low / 16 ^ k % 16 := by
      rw [Nat.shiftRight_eq_div_pow]
      rw [show (0xf : Nat) = 2 ^ 4 - 1 from rfl,
        Nat.and_pow_two_sub_one_eq_mod]
      rw [show (2 : Nat) ^ (4 * k) = 16 ^ k from by
        rw [Nat.pow_mul]]
    have hsplit : decL (k + 1) low = decL k low + low / 16 ^ k % 16 * 10 ^ k :=
      decL_succ_high k low
    have hnl : low / 16 ^ k % 16 < 16 := Nat.mod_lt _ (by norm_num)
    have hpow : (10 : Nat) ^ (k + 1) = 10 * 10 ^ k := by
      rw [Nat.pow_succ]
      ring
    have hpowpos : 0 < (10 : Nat) ^ k := Nat.pos_pow_of_pos _ (by norm_num)
    have hbound : (m * 10 + low / 16 ^ k % 16) * 10 ^ k + decL k low <
        18446744073709551616 := by
      have : (m * 10 + low / 16 ^ k % 16) * 10 ^ k + decL k low =
          m * 10 ^ (k + 1) + decL (k + 1) low := by
        rw [hsplit, hpow]
        ring
      omega
    have hsmall : m * 10 + low / 16 ^ k % 16 < 18446744073709551616 := by
      have h1 : m * 10 + low / 16 ^ k % 16 ≤
          (m * 10 + low / 16 ^ k % 16) * 10 ^ k + decL k low :=
        Nat.le_add_right_of_le (Nat.le_mul_of_pos_right _ hpowpos)
      omega
    have hstep : unpackLoop (k + 1) low m =
        unpackLoop k low (m * 10 + low / 16 ^ k % 16) := by
      simp only [unpackLoop, hnib]
      rw [trunc64_eq _ hsmall]
    rw [hstep, ih low (m * 10 + low / 16 ^ k % 16) hbound]
    rw [hsplit, hpow]
    ring

theorem or_masked_sign (base x : Nat) (hb : base < 32768) :
    (base ||| (x &&& 32768)) &&& 32768 = x &&& 32768 := by
  apply Nat.eq_of_testBit_eq
  intro i
  have h15 : (32768 : Nat) = 2 ^ 15 := rfl
  rw [h15]
  simp only [Nat.testBit_and, Nat.testBit_or, Nat.testBit_two_pow]
  by_cases hi : 15 = i
  · subst hi
    have : base.testBit 15 = false := Nat.testBit_lt_two_pow hb
    simp [this]
  · simp [hi]

theorem or_masked_hi_nib (base x : Nat) :
    ((base ||| (x &&& 32768)) >>> 4) &&& 15 = (base >>> 4) &&& 15 := by
  apply Nat.eq_of_testBit_eq
  intro i
  have h15 : (32768 : Nat) = 2 ^ 15 := rfl
  have h4 : (15 : Nat) = 2 ^ 4 - 1 := rfl
  rw [h15, h4]
  simp only [Nat.testBit_and, Nat.testBit_or, Nat.testBit_two_pow,
    Nat.testBit_shiftRight, Nat.testBit_two_pow_sub_one]
  by_cases hi : i < 4
  · have : ¬ 15 = 4 + i := by omega
    simp [hi, this]
  · simp [hi]

theorem or_masked_lo_nib (base x : Nat) :
    (base ||| (x &&& 32768)) &&& 15 = base &&& 15 := by
  apply Nat.eq_of_testBit_eq
  intro i
  have h15 : (32768 : Nat) = 2 ^ 15 := rfl
  have h4 : (15 : Nat) = 2 ^ 4 - 1 := rfl
  rw [h15, h4]
  simp only [Nat.testBit_and, Nat.testBit_or, Nat.testBit_two_pow,
    Nat.testBit_two_pow_sub_one]
  by_cases hi : i < 4
  · have : ¬ 15 = i := by omega
    simp [hi, this]
  · simp [hi]

/-- C4: for every n < 10^18, packing n into the 10-byte BCD image as
FBSTP does (16 packed digits in the low word, two more and the sign bit
of ST(0).high in the high word) and decoding the image as FBLD does
yields n again, and the decoded sign bit is exactly bit 15 of the
original high word. -/
theorem c4_bcd_roundtrip (n stHigh : Nat) (h : n < 10 ^ 18) :
    x87_fbld_unpack (x87_fbstp_pack n stHigh) = (n, stHigh &&& 0x8000) := by
  have e16 : (10 : Nat) ^ 16 = 10000000000000000 := by norm_num
  have e18 : (10 : Nat) ^ 18 = 1000000000000000000 := by norm_num
  have h' : n < 1000000000000000000 := by rw [e18] at h; exact h
  have henclt : encL 16 n < 18446744073709551616 := by
    have h1 := encL_lt 16 n
    have h2 : (16 : Nat) ^ 16 = 18446744073709551616 := by norm_num
    omega
  have hpack := packLoop_spec 16 0 n 0 (by simpa using henclt)
  rw [show (0 : Nat) + 2 ^ 0 * encL 16 n = encL 16 n from by norm_num] at hpack
  have hu : n / 10 ^ 16 < 100 := by
    rw [e16]
    omega
  set u := n / 10 ^ 16 with hudef
  have hbase : u % 10 + u / 10 % 10 * 16 < 32768 := by omega
  have hshl : (u / 10 % 10) <<< 4 = u / 10 % 10 * 16 := by
    rw [Nat.shiftLeft_eq]
  have hpack2 : x87_fbstp_pack n stHigh =
      ⟨(u % 10 + u / 10 % 10 * 16) ||| (stHigh &&& 0x8000), encL 16 n⟩ := by
    simp only [x87_fbstp_pack, hpack, hshl]
  rw [hpack2]
  simp only [x87_fbld_unpack]
  have hs : ((u % 10 + u / 10 % 10 * 16) ||| (stHigh &&& 32768)) &&& 32768 =
      stHigh &&& 32768 := or_masked_sign _ _ hbase
  have hhi : (((u % 10 + u / 10 % 10 * 16) ||| (stHigh &&& 32768)) >>> 4)
      &&& 15 = u / 10 % 10 := by
    rw [or_masked_hi_nib]
    rw [Nat.shiftRight_eq_div_pow,
      show (15 : Nat) = 2 ^ 4 - 1 from rfl, Nat.and_pow_two_sub_one_eq_mod]
    omega
  have hlo : ((u % 10 + u / 10 % 10 * 16) ||| (stHigh &&& 32768)) &&& 15 =
      u % 10 := by
    rw [or_masked_lo_nib,
      show (15 : Nat) = 2 ^ 4 - 1 from rfl, Nat.and_pow_two_sub_one_eq_mod]
    omega
  have hm0 : trunc64 ((((u % 10 + u / 10 % 10 * 16) |||
      (stHigh &&& 32768)) >>> 4 &&& 0xf) * 10 +
      (((u % 10 + u / 10 % 10 * 16) ||| (stHigh &&& 32768)) &&& 0xf)) = u := by
    rw [show (0xf : Nat) = 15 from rfl, hhi, hlo, trunc64_eq _ (by omega)]
    omega
  have hdec16 : decL 16 (encL 16 n) = n % 10 ^ 16 := decL_encL 16 n
  have hunp := unpackLoop_spec 16 (encL 16 n) u (by
    rw [hdec16, e16]
    omega)
  rw [Prod.mk.injEq]
  constructor
  · rw [hm0, hunp, hdec16]
    have hdm := Nat.div_add_mod n (10 ^ 16)
    rw [e16] at hdm ⊢
    omega
  · exact hs

/-- C4 (witness): the round-trip theorem at a concrete 18-digit value
with the sign bit set. -/
theorem c4_bcd_roundtrip_witness :
    x87_fbld_unpack (x87_fbstp_pack 123456789012345678 0x8000) =
      (123456789012345678, 0x8000 &&& 0x8000) :=
  c4_bcd_roundtrip 123456789012345678 0x8000 (by norm_num)
